import Mathlib

/-!
# Readiness aggregation of the service-mesh control plane

A shallow embedding of `pkg/controller/servicemesh/controlplane/readiness.go`.

* Go `error` values are `Option Error` (`none` is `nil`).
* Receiver state that the methods mutate (the condition set, the event recorder, the
  resource-store client) is passed explicitly through `controlPlaneInstanceReconciler`.
* Logging (`log.Info`, `log.Error`) has no influence on results and is left out.
* `context.Context` is left out: no function of the file inspects it.
-/

namespace Readiness

/-! ## Unstructured content (`k8s.io/apimachinery/pkg/apis/meta/v1/unstructured`) -/

/-- A Go `error`; only its message (`err.Error()`) is observable here. -/
structure Error where
  msg : String
  deriving DecidableEq, Repr

/-- The dynamic values (`interface{}`) that unstructured content is made of: JSON decoded
the way the Kubernetes client decodes it (integral numbers become `int64`, the others
`float64`). A Go map is an association list read by its first matching key. The payload of
`float64` is never inspected by the code under study. -/
inductive Value where
  | null
  | bool (b : Bool)
  | int64 (i : Int)
  | float64 (bits : Nat)
  | string (s : String)
  | slice (items : List Value)
  | map (fields : List (String × Value))

/-- Indexing `m[field]` of a `map[string]interface{}`: the value and the comma-ok flag as an
option. -/
def Value.index : List (String × Value) → String → Option Value
  | [], _ => none
  | (k, v) :: rest, field => if k = field then some v else Value.index rest field

/-- The type `unstructured.Unstructured`: `Object` is what `UnstructuredContent()` returns. -/
structure Unstructured where
  Object : List (String × Value)

/-- Library function `unstructured.NestedFieldNoCopy`, started at `val` (the callers start at
the object map): walks `fields`; a missing key is "not found" (`.ok none`); a value on the
way that is not a map is an accessor error, a `nil` value included, as in the apimachinery
releases that go with the controller-runtime client API used at line 117. -/
def NestedFieldNoCopy : Value → List String → Except Error (Option Value)
  | val, [] => .ok (some val)
  | .map m, field :: rest =>
    match Value.index m field with
    | none => .ok none
    | some v => NestedFieldNoCopy v rest
  | _, _ :: _ => .error ⟨"accessor error: expected a map"⟩

/-- Library function `unstructured.NestedInt64`: `(value, found, err)`. -/
def NestedInt64 (obj : List (String × Value)) (fields : List String) :
    Int × Bool × Option Error :=
  match NestedFieldNoCopy (.map obj) fields with
  | .error err => (0, false, some err)
  | .ok none => (0, false, none)
  | .ok (some (.int64 i)) => (i, true, none)
  | .ok (some _) => (0, false, some ⟨"accessor error: expected int64"⟩)

/-- Library function `unstructured.NestedString`: `(value, found, err)`. -/
def NestedString (obj : List (String × Value)) (fields : List String) :
    String × Bool × Option Error :=
  match NestedFieldNoCopy (.map obj) fields with
  | .error err => ("", false, some err)
  | .ok none => ("", false, none)
  | .ok (some (.string s)) => (s, true, none)
  | .ok (some _) => ("", false, some ⟨"accessor error: expected string"⟩)

/-- Library function `unstructured.NestedSlice`: `(value, found, err)`. -/
def NestedSlice (obj : List (String × Value)) (fields : List String) :
    List Value × Bool × Option Error :=
  match NestedFieldNoCopy (.map obj) fields with
  | .error err => ([], false, some err)
  | .ok none => ([], false, none)
  | .ok (some (.slice items)) => (items, true, none)
  | .ok (some _) => ([], false, some ⟨"accessor error: expected a slice"⟩)

/-- The loop of `unstructured.NestedStringMap`: copies a map whose values are all strings,
fails at the first value that is not a string. -/
def stringMapOf : List (String × Value) → Option (List (String × String))
  | [] => some []
  | (k, .string s) :: rest =>
    match stringMapOf rest with
    | some m => some ((k, s) :: m)
    | none => none
  | _ :: _ => none

/-- Library method `(*Unstructured).GetLabels`: `NestedStringMap(u.Object, "metadata",
"labels")` with the
found flag and the error dropped, so every failure gives the empty (nil) map. -/
def Unstructured.GetLabels (u : Unstructured) : List (String × String) :=
  match NestedFieldNoCopy (.map u.Object) ["metadata", "labels"] with
  | .ok (some (.map m)) =>
    match stringMapOf m with
    | some labels => labels
    | none => []
  | _ => []

/-- Modelled from the spec: `common.KubernetesAppComponentKey`, the key of the label that
carries the ComponentName of an owned resource. -/
def KubernetesAppComponentKey : String := "app.kubernetes.io/component"

/-- Modelled from the spec: `common.GetLabel`, "ComponentName: string identifier extracted
from a label on each owned resource"; `none` is the comma-ok flag `false`. -/
def GetLabel (resource : Unstructured) (label : String) : Option String :=
  (resource.GetLabels.find? (fun kv => kv.1 = label)).map Prod.snd

/-! ## ResourceReadinessProbe -/

/-- The loop of `deploymentReady` over `status.conditions` (lines 156-168). -/
def deploymentReadyLoop : List Value → Bool
  | [] => false
  | .map conditionMap :: rest =>
    let conditionType := (NestedString conditionMap ["type"]).1
    if conditionType = "Available" then
      let conditionStatus := (NestedString conditionMap ["status"]).1
      conditionStatus = "True"
    else deploymentReadyLoop rest
  | _ :: rest => deploymentReadyLoop rest

/-- Method `deploymentReady` (lines 145-169). -/
def deploymentReady (deployment : Unstructured) : Bool :=
  match NestedSlice deployment.Object ["status", "conditions"] with
  | (_, _, some _) => false
  | (_, false, none) => false
  | (conditions, true, none) => deploymentReadyLoop conditions

/-- Method `statefulSetReady` (lines 171-192). -/
def statefulSetReady (statefulSet : Unstructured) : Bool :=
  match NestedInt64 statefulSet.Object ["status", "replicas"] with
  | (_, _, some _) => false
  | (_, false, none) => false
  | (replicas, true, none) =>
    match NestedInt64 statefulSet.Object ["status", "readyReplicas"] with
    | (_, _, some _) => false
    | (_, false, none) => false
    | (readyReplicas, true, none) => decide (readyReplicas ≥ replicas)

/-- Method `daemonSetReady` (lines 194-203). -/
def daemonSetReady (daemonSet : Unstructured) : Bool :=
  match NestedInt64 daemonSet.Object ["status", "numberUnavailable"] with
  | (_, _, some _) => false
  | (unavailable, found, none) => !found || decide (unavailable = 0)

/-! ### Vocabulary for statements about status documents -/

/-- An entry of `status.conditions` is a condition of type "Available": an object whose
field `type` is the string "Available". -/
def isAvailableCondition : Value → Bool
  | .map m =>
    match Value.index m "type" with
    | some (.string t) => t = "Available"
    | _ => false
  | _ => false

/-- The status of a condition is "True": an object whose field `status` is the string
"True". -/
def hasStatusTrue : Value → Bool
  | .map m =>
    match Value.index m "status" with
    | some (.string s) => s = "True"
    | _ => false
  | _ => false

/-! ## ReadinessMap and the resource store -/

/-- The Go `map[string]bool` that `calculateNotReadyState` fills: component name to
"not ready". Keys are distinct. The order of `entries` stands for the order in which a
`range` loop visits the map, which Go leaves unspecified. -/
abbrev ReadinessMap := AList (fun _ : String => Bool)

/-- Reading `notReadyState[component]`: a missing key gives the zero value `false`. -/
def mapGet (m : ReadinessMap) (component : String) : Bool :=
  (m.lookup component).getD false

/-- The assignment `notReadyState[component] = v`. -/
def mapSet (m : ReadinessMap) (component : String) (v : Bool) : ReadinessMap :=
  m.insert component v

/-- The workload kinds whose owned resources are scanned (`gvk.Kind`). -/
inductive Kind where
  | Deployment
  | StatefulSet
  | DaemonSet
  deriving DecidableEq, Repr

/-- A listing request sent to the resource store: the owned resources of a kind in the
namespace of the instance, or the CNI DaemonSets in the namespace of the operator. -/
inductive ListCall where
  | owned (kind : Kind)
  | cni
  deriving DecidableEq, Repr

/-- Modelled from the spec: the resource store behind `r.Client`,
"List(kind, scope, ownerSelector, [extraLabelSelector]) → collection of status documents |
error", one outcome for each of the four listings of a pass. -/
structure Client where
  deployments : Except Error (List Unstructured)
  statefulSets : Except Error (List Unstructured)
  daemonSets : Except Error (List Unstructured)
  cniDaemonSets : Except Error (List Unstructured)

/-- Modelled from the spec: `common.FetchOwnedResources`, the listing of the resources of
one kind that the instance owns. -/
def FetchOwnedResources (c : Client) : Kind → Except Error (List Unstructured)
  | .Deployment => c.deployments
  | .StatefulSet => c.statefulSets
  | .DaemonSet => c.daemonSets

/-! ## Conditions and events (`pkg/apis/maistra/v1`, `k8s.io/api/core/v1`) -/

/-- Modelled from the spec: `v1.ConditionType`. -/
inductive ConditionType where
  | Installed
  | Reconciled
  | Ready
  deriving DecidableEq, Repr

/-- Modelled from the spec: `v1.ConditionStatus`, "one of exactly three values". -/
inductive ConditionStatus where
  | True
  | False
  | Unknown
  deriving DecidableEq, Repr

/-- Modelled from the spec: `v1.ConditionReason`, "Reason (enumerated)"; `Other` stands for
the reasons that this file never writes. -/
inductive ConditionReason where
  | ProbeError
  | ComponentsNotReady
  | ComponentsReady
  | Other (name : String)
  deriving DecidableEq, Repr

/-- Modelled from the spec: `v1.Condition`,
"{Type ("Ready"), Status (True/False/Unknown), Reason (enumerated), Message (human text)}";
the field `Type` is spelled `Type_`, `Type` being reserved. -/
structure Condition where
  Type_ : ConditionType
  Status : ConditionStatus
  Reason : ConditionReason
  Message : String
  deriving DecidableEq, Repr

/-- Modelled from the spec: `v1.StatusType`, the ConditionSet of the instance. -/
structure StatusType where
  Conditions : List Condition
  deriving DecidableEq, Repr

/-- Modelled from the spec: `(*StatusType).GetCondition`, "get-by-type". A type with no
stored condition reads as a condition of that type with status Unknown. -/
def StatusType.GetCondition (s : StatusType) (conditionType : ConditionType) : Condition :=
  match s.Conditions.find? (fun c => c.Type_ = conditionType) with
  | some c => c
  | none => { Type_ := conditionType, Status := .Unknown, Reason := .Other "", Message := "" }

/-- Modelled from the spec: the upsert behind `SetCondition`, "replaced wholesale on each
transition, never appended": the first stored condition of the same type is
replaced wholesale, otherwise the condition is added at the end. -/
def upsertCondition (condition : Condition) : List Condition → List Condition
  | [] => [condition]
  | c :: rest =>
    if c.Type_ = condition.Type_ then condition :: rest
    else c :: upsertCondition condition rest

/-- Modelled from the spec: `(*StatusType).SetCondition`, "upsert-by-type". -/
def StatusType.SetCondition (s : StatusType) (condition : Condition) : StatusType :=
  { Conditions := upsertCondition condition s.Conditions }

/-- The severities `corev1.EventTypeNormal` and `corev1.EventTypeWarning`. -/
inductive EventType where
  | Normal
  | Warning
  deriving DecidableEq, Repr

/-- Modelled from the spec: the package constants `eventReasonNotReady` and
`eventReasonReady`, the reasons of the notifications. -/
inductive EventReason where
  | NotReady
  | Ready
  deriving DecidableEq, Repr

/-- Modelled from the spec: one call of the notification sink,
"Event(instance, severity ∈ {Normal, Warning}, reason, message)". -/
structure Event where
  eventtype : EventType
  reason : EventReason
  message : String
  deriving DecidableEq, Repr

/-- Modelled from the spec: the receiver `controlPlaneInstanceReconciler`. `Client`,
`IsCNIEnabled` (the global `common.IsCNIEnabled`) and `skipStatusUpdate` (the result of
`r.skipStatusUpdate()`) are the read-only inputs of a pass; `Status` is the condition
set; `EventRecorder`, `listCalls` and `postStatusCalls` record, oldest first, the calls
made to the notification sink, to the resource store and to `PostStatus`. -/
structure controlPlaneInstanceReconciler where
  Client : Client
  IsCNIEnabled : Bool
  skipStatusUpdate : Bool
  Status : StatusType
  EventRecorder : List Event
  listCalls : List ListCall
  postStatusCalls : Nat

/-! ## OwnedResourceScanner and ReadinessAggregator -/

/-- The body of the loop of `calculateNotReadyStateForType` (lines 135-140). -/
def mergeResource (isReady : Unstructured → Bool) (notReadyState : ReadinessMap)
    (resource : Unstructured) : ReadinessMap :=
  match GetLabel resource KubernetesAppComponentKey with
  | some component =>
    mapSet notReadyState component (mapGet notReadyState component || !isReady resource)
  | none => notReadyState

/-- Method `calculateNotReadyStateForType` (lines 128-143): the map after the call, the returned
error, and the listings the call sent to the store. -/
def calculateNotReadyStateForType (r : controlPlaneInstanceReconciler) (gvk : Kind)
    (notReadyState : ReadinessMap) (isReady : Unstructured → Bool) :
    ReadinessMap × Option Error × List ListCall :=
  match FetchOwnedResources r.Client gvk with
  | .error err => (notReadyState, some err, [ListCall.owned gvk])
  | .ok resources =>
    (resources.foldl (mergeResource isReady) notReadyState, none, [ListCall.owned gvk])

/-- The loop of `calculateNotReadyStateForCNI` (lines 120-125). -/
def cniLoop : List Unstructured → Bool
  | [] => false
  | ds :: rest => if !daemonSetReady ds then true else cniLoop rest

/-- Method `calculateNotReadyStateForCNI` (lines 109-126): the returned flag, the returned error,
and the listings the call sent to the store. -/
def calculateNotReadyStateForCNI (r : controlPlaneInstanceReconciler) :
    Bool × Option Error × List ListCall :=
  if !r.IsCNIEnabled then (false, none, [])
  else
    match r.Client.cniDaemonSets with
    | .error err => (true, some err, [ListCall.cni])
    | .ok daemonSets => (cniLoop daemonSets, none, [ListCall.cni])

/-- Method `calculateNotReadyState` (lines 89-107): the returned map, the returned error, and the
listings sent to the store, in the order they were sent. -/
def calculateNotReadyState (r : controlPlaneInstanceReconciler) :
    ReadinessMap × Option Error × List ListCall :=
  let notReadyState : ReadinessMap := ∅
  match calculateNotReadyStateForType r .Deployment notReadyState deploymentReady with
  | (notReadyState, some err, calls1) => (notReadyState, some err, calls1)
  | (notReadyState, none, calls1) =>
    match calculateNotReadyStateForType r .StatefulSet notReadyState statefulSetReady with
    | (notReadyState, some err, calls2) => (notReadyState, some err, calls1 ++ calls2)
    | (notReadyState, none, calls2) =>
      match calculateNotReadyStateForType r .DaemonSet notReadyState daemonSetReady with
      | (notReadyState, some err, calls3) =>
        (notReadyState, some err, calls1 ++ calls2 ++ calls3)
      | (notReadyState, none, calls3) =>
        match calculateNotReadyStateForCNI r with
        | (cniNotReady, err, calls4) =>
          (mapSet notReadyState "cni" cniNotReady, err, calls1 ++ calls2 ++ calls3 ++ calls4)

/-! ## ConditionTransitionEngine -/

/-- The text `fmt.Sprintf("%s", xs)` prints for a `[]string`. -/
def sprintStrings (xs : List String) : String :=
  "[" ++ " ".intercalate xs ++ "]"

/-- The loop of lines 51-57: the components whose flag is true, in the order the `range`
visits the map. -/
def unreadyComponentsOf (notReadyState : ReadinessMap) : List String :=
  (notReadyState.entries.filter (fun e => e.2)).map (fun e => e.1)

/-- Lines 40-86 of `updateReadinessStatus`: what the function does once
`calculateNotReadyState` has returned `(notReadyState, err)`. -/
def updateReadinessStatusWith (notReadyState : ReadinessMap) (err : Option Error)
    (r : controlPlaneInstanceReconciler) :
    Bool × Option Error × controlPlaneInstanceReconciler :=
  match err with
  | some e =>
    let condition : Condition :=
      { Type_ := .Ready, Status := .Unknown, Reason := .ProbeError,
        Message := "Error collecting ready state: " ++ e.msg }
    (true, some e,
      { r with
        Status := r.Status.SetCondition condition
        EventRecorder := r.EventRecorder ++ [⟨.Warning, .NotReady, condition.Message⟩] })
  | none =>
    let unreadyComponents := unreadyComponentsOf notReadyState
    let readyCondition := r.Status.GetCondition .Ready
    if unreadyComponents.length > 0 then
      if readyCondition.Status ≠ .False then
        let condition : Condition :=
          { Type_ := .Ready, Status := .False, Reason := .ComponentsNotReady,
            Message := "Some components are not fully available" }
        (true, none,
          { r with
            Status := r.Status.SetCondition condition
            EventRecorder := r.EventRecorder ++ [⟨.Warning, .NotReady,
              "The following components are not fully available: " ++
                sprintStrings unreadyComponents⟩] })
      else (false, none, r)
    else
      if readyCondition.Status ≠ .True then
        let condition : Condition :=
          { Type_ := .Ready, Status := .True, Reason := .ComponentsReady,
            Message := "All component deployments are Available" }
        (true, none,
          { r with
            Status := r.Status.SetCondition condition
            EventRecorder := r.EventRecorder ++ [⟨.Normal, .Ready, condition.Message⟩] })
      else (false, none, r)

/-- Method `updateReadinessStatus` (lines 36-87). -/
def updateReadinessStatus (r : controlPlaneInstanceReconciler) :
    Bool × Option Error × controlPlaneInstanceReconciler :=
  match calculateNotReadyState r with
  | (notReadyState, err, calls) =>
    updateReadinessStatusWith notReadyState err { r with listCalls := r.listCalls ++ calls }

/-! ## ReadinessReconciliationOrchestrator -/

/-- Lines 21-33 of `UpdateReadiness`: what the function does once `updateReadinessStatus`
has returned `(update, err)`. `statusErr` is what `PostStatus` returns if it is called in
this pass. -/
def UpdateReadinessWith (update : Bool) (err : Option Error) (statusErr : Option Error)
    (r : controlPlaneInstanceReconciler) : Option Error × controlPlaneInstanceReconciler :=
  if update && !r.skipStatusUpdate then
    let r1 := { r with postStatusCalls := r.postStatusCalls + 1 }
    match statusErr with
    | some se =>
      match err with
      | none => (some se, r1)
      | some e => (some e, r1)
    | none => (err, r1)
  else (err, r)

/-- Method `UpdateReadiness` (lines 18-34). -/
def UpdateReadiness (statusErr : Option Error) (r : controlPlaneInstanceReconciler) :
    Option Error × controlPlaneInstanceReconciler :=
  match updateReadinessStatus r with
  | (update, err, r) => UpdateReadinessWith update err statusErr r

/-! ## Concrete inputs -/

/-- The reconciler used in the instances below: an empty cluster, CNI disabled, no stored
condition, nothing recorded. -/
def idleReconciler : controlPlaneInstanceReconciler :=
  { Client := ⟨.ok [], .ok [], .ok [], .ok []⟩, IsCNIEnabled := false,
    skipStatusUpdate := false, Status := ⟨[]⟩, EventRecorder := [], listCalls := [],
    postStatusCalls := 0 }

/-- A ReadinessMap with one component, which is not ready. -/
def istiodNotReady : ReadinessMap := mapSet ∅ "istiod" true

/-- A cluster with no owned resources and CNI enabled, in which the listing of the CNI
DaemonSets fails. -/
def cniListingFails : controlPlaneInstanceReconciler :=
  { idleReconciler with
    Client := ⟨.ok [], .ok [], .ok [], .error ⟨"timeout"⟩⟩, IsCNIEnabled := true }

/-- A cluster in which the listing of the owned Deployments fails. -/
def deploymentListingFails : controlPlaneInstanceReconciler :=
  { idleReconciler with
    Client := ⟨.error ⟨"timeout"⟩, .ok [], .ok [], .ok []⟩, IsCNIEnabled := true }

/-- A Deployment whose `status.conditions` holds two conditions of type "Available", the
first with status "False", the second with status "True". -/
def twoAvailable : Unstructured :=
  ⟨[("status", .map [("conditions", .slice
      [.map [("type", .string "Available"), ("status", .string "False")],
       .map [("type", .string "Available"), ("status", .string "True")]])])]⟩

/-- A DaemonSet whose `status` is a string, not an object. -/
def statusIsString : Unstructured := ⟨[("status", .string "oops")]⟩

/-- An owned Deployment that carries no labels and reports no status. -/
def unlabeledDeployment : Unstructured := ⟨[]⟩

/-- An owned Deployment of the component "istiod" that is Available. -/
def istiodDeployment : Unstructured :=
  ⟨[("metadata", .map [("labels", .map [("app.kubernetes.io/component", .string "istiod")])]),
    ("status", .map [("conditions", .slice
      [.map [("type", .string "Available"), ("status", .string "True")]])])]⟩

/-- A cluster whose owned Deployments are `unlabeledDeployment` and `istiodDeployment`. -/
def withUnlabeled : controlPlaneInstanceReconciler :=
  { idleReconciler with
    Client := ⟨.ok [unlabeledDeployment, istiodDeployment], .ok [], .ok [], .ok []⟩ }

/-- The same cluster without the Deployment that carries no labels. -/
def withoutUnlabeled : controlPlaneInstanceReconciler :=
  { idleReconciler with Client := ⟨.ok [istiodDeployment], .ok [], .ok [], .ok []⟩ }

/-- An owned Deployment whose component label is "cni" and that reports no status, so
that it is not ready. -/
def cniDeployment : Unstructured :=
  ⟨[("metadata", .map [("labels", .map [("app.kubernetes.io/component", .string "cni")])])]⟩

/-- A cluster whose only owned resource is `cniDeployment`, with CNI disabled. -/
def cniLabelled : controlPlaneInstanceReconciler :=
  { idleReconciler with Client := ⟨.ok [cniDeployment], .ok [], .ok [], .ok []⟩ }

/-- A CNI DaemonSet that reports one unavailable pod. -/
def cniDaemonSetUnavailable : Unstructured :=
  ⟨[("status", .map [("numberUnavailable", .int64 1)])]⟩

/-- A cluster with CNI enabled whose CNI listing returns `cniDaemonSetUnavailable`. -/
def cniUnavailable : controlPlaneInstanceReconciler :=
  { idleReconciler with
    Client := ⟨.ok [], .ok [], .ok [], .ok [cniDaemonSetUnavailable]⟩, IsCNIEnabled := true }

/-- A cluster whose owned Deployments are "istiod" (ready) and one labeled "cni" (not
ready), listed in that order. -/
def twoComponents : controlPlaneInstanceReconciler :=
  { idleReconciler with
    Client := ⟨.ok [istiodDeployment, cniDeployment], .ok [], .ok [], .ok []⟩ }

/-- The cluster of `twoComponents` with its two Deployments listed in the other order. -/
def twoComponentsSwapped : controlPlaneInstanceReconciler :=
  { idleReconciler with
    Client := ⟨.ok [cniDeployment, istiodDeployment], .ok [], .ok [], .ok []⟩ }

/-- A ReadinessMap with the components "a" and "b", both not ready, that a `range` visits
in the order "b", "a". -/
def bThenA : ReadinessMap := mapSet (mapSet ∅ "a" true) "b" true

/-- A ReadinessMap in which "galley" is not ready and "istiod" is ready. -/
def galleyNotReady : ReadinessMap := mapSet (mapSet ∅ "istiod" false) "galley" true

/-- An owned Deployment of the component "a" that reports no status. -/
def deploymentA : Unstructured :=
  ⟨[("metadata", .map [("labels", .map [("app.kubernetes.io/component", .string "a")])])]⟩

/-- An owned Deployment of the component "b" that reports no status. -/
def deploymentB : Unstructured :=
  ⟨[("metadata", .map [("labels", .map [("app.kubernetes.io/component", .string "b")])])]⟩

/-- A cluster whose owned Deployments are `deploymentA` and `deploymentB`, both not ready. -/
def unreadyAB : controlPlaneInstanceReconciler :=
  { idleReconciler with Client := ⟨.ok [deploymentA, deploymentB], .ok [], .ok [], .ok []⟩ }

/-- The idle reconciler with a stored Ready condition whose status is False. -/
def storedFalse : controlPlaneInstanceReconciler :=
  { idleReconciler with
    Status := ⟨[⟨.Ready, .False, .ComponentsNotReady,
      "Some components are not fully available"⟩]⟩ }

end Readiness

/-!
# Gateway conversion

A shallow embedding of `pkg/apis/maistra/conversion/gateways.go`: the conversion of a
`v2.GatewayConfig` to Helm values and back, and the mesh-expansion ports. Helm values
(`map[string]interface{}`) are the `Value` maps of the readiness part.
-/

namespace Conversion

open Readiness (Error Value NestedFieldNoCopy)

/-! ## Helm values addressed by a dotted path -/

/-- The cut of a list of characters at every occurrence of `sep`; the pieces are never
fewer than one. -/
def splitChars (sep : Char) : List Char → List (List Char)
  | [] => [[]]
  | c :: cs =>
    if c = sep then [] :: splitChars sep cs
    else
      match splitChars sep cs with
      | [] => [[c]]
      | w :: ws => (c :: w) :: ws

/-- Go `strings.Split(s, sep)` for a separator of one character. -/
def stringsSplit (s : String) (sep : Char) : List String :=
  (splitChars sep s.data).map String.mk

/-- The assignment `m[field] = value` on a Go map held as an association list: the entry
of the key is replaced, a new key is added at the end. -/
def assign : List (String × Value) → String → Value → List (String × Value)
  | [], field, value => [(field, value)]
  | (k, v) :: rest, field, value =>
    if k = field then (k, value) :: rest else (k, v) :: assign rest field value

/-- Library function `unstructured.SetNestedField`: walks all fields but the last, creating
the maps that are missing and failing on a value that is not a map, then assigns the last
field. The result is the map after the call. -/
def SetNestedField (obj : List (String × Value)) (value : Value) :
    List String → Except Error (List (String × Value))
  | [] => .error ⟨"no field to set"⟩
  | [field] => .ok (assign obj field value)
  | field :: rest =>
    match Value.index obj field with
    | some (.map valMap) =>
      match SetNestedField valMap value rest with
      | .ok m => .ok (assign obj field (.map m))
      | .error err => .error err
    | some _ => .error ⟨"value cannot be set because the field is not a map"⟩
    | none =>
      match SetNestedField [] value rest with
      | .ok m => .ok (assign obj field (.map m))
      | .error err => .error err

/-- Modelled from the spec: the helper `setHelmValue`, which writes the value at the dotted
path it is given ("Helm-value path addressing"). -/
def setHelmValue (obj : List (String × Value)) (path : String) (value : Value) :
    Except Error (List (String × Value)) :=
  SetNestedField obj value (stringsSplit path '.')

/-- Modelled from the spec: the helper `setHelmBoolValue`. -/
def setHelmBoolValue (obj : List (String × Value)) (path : String) (value : Bool) :
    Except Error (List (String × Value)) :=
  setHelmValue obj path (.bool value)

/-- Modelled from the spec: the helper `setHelmStringValue`. -/
def setHelmStringValue (obj : List (String × Value)) (path : String) (value : String) :
    Except Error (List (String × Value)) :=
  setHelmValue obj path (.string value)

/-- Modelled from the spec: the helper `setHelmStringSliceValue`. -/
def setHelmStringSliceValue (obj : List (String × Value)) (path : String)
    (value : List String) : Except Error (List (String × Value)) :=
  setHelmValue obj path (.slice (value.map Value.string))

/-- Modelled from the spec: the helper `setHelmStringMapValue`. -/
def setHelmStringMapValue (obj : List (String × Value)) (path : String)
    (value : List (String × String)) : Except Error (List (String × Value)) :=
  setHelmValue obj path (.map (value.map fun kv => (kv.1, Value.string kv.2)))

/-- Modelled from the spec: the helper `getHelmBoolValue`, which reads the dotted path it
is given; `none` is the nil pointer, returned when the path holds no boolean. -/
def getHelmBoolValue (obj : List (String × Value)) (path : String) : Option Bool :=
  match NestedFieldNoCopy (.map obj) (stringsSplit path '.') with
  | .ok (some (.bool b)) => some b
  | _ => none

/-- Modelled from the spec: the helper `getHelmStringValue`; the empty string is returned
when the path holds no string. -/
def getHelmStringValue (obj : List (String × Value)) (path : String) : String :=
  match NestedFieldNoCopy (.map obj) (stringsSplit path '.') with
  | .ok (some (.string s)) => s
  | _ => ""

/-- The strings of a list of values, if all of them are strings. -/
def stringsOf : List Value → Option (List String)
  | [] => some []
  | .string s :: rest =>
    match stringsOf rest with
    | some l => some (s :: l)
    | none => none
  | _ :: _ => none

/-- Modelled from the spec: the helper `getHelmStringSliceValue`; the nil slice is the
empty list, returned when the path holds no list of strings. -/
def getHelmStringSliceValue (obj : List (String × Value)) (path : String) : List String :=
  match NestedFieldNoCopy (.map obj) (stringsSplit path '.') with
  | .ok (some (.slice items)) =>
    match stringsOf items with
    | some l => l
    | none => []
  | _ => []

/-- Modelled from the spec: the helper `getHelmStringMapValue`; the nil map is the empty
list, returned when the path holds no map of strings. -/
def getHelmStringMapValue (obj : List (String × Value)) (path : String) :
    List (String × String) :=
  match NestedFieldNoCopy (.map obj) (stringsSplit path '.') with
  | .ok (some (.map m)) =>
    match Readiness.stringMapOf m with
    | some l => l
    | none => []
  | _ => []

/-! ## The configuration types (`pkg/apis/maistra/v2`, `k8s.io/api/core/v1`) -/

/-- The type `intstr.IntOrString`. -/
inductive IntOrString where
  | int (i : Int)
  | str (s : String)
  deriving DecidableEq, Repr

/-- The type `corev1.ServicePort`; `Port` and `NodePort` are `int32`. -/
structure ServicePort where
  Name : String
  Protocol : String
  Port : Int
  TargetPort : IntOrString
  NodePort : Int
  deriving DecidableEq, Repr

/-- Modelled from the spec: `v2.ContainerConfig`, as far as the conversion reads it;
`Resources` is a `*corev1.ResourceRequirements` held as the document it marshals to. -/
structure ContainerConfig where
  Image : String
  Resources : Option Value

/-- Modelled from the spec: `v2.ComponentRuntimeConfig`, as far as the conversion reads
it: `Containers` is `Pod.Containers` (`none` is the nil map), `Settings` stands for
everything else, which only `populateRuntimeValues` reads. -/
structure ComponentRuntimeConfig where
  Containers : Option (List (String × ContainerConfig))
  Settings : Value

/-- Modelled from the spec: `v2.VolumeConfig`, as far as the conversion reads it:
`ConfigMap` and `Secret` are pointers of which only nil or not nil is read. -/
structure VolumeConfig where
  VolumeName : String
  ConfigMap : Option Value
  Secret : Option Value
  MountName : String
  MountPath : String

/-- Modelled from the spec: `v2.GatewayServiceConfig`; `Labels` is `Metadata.Labels`, the
field `Type` is spelled `Type_`. -/
structure GatewayServiceConfig where
  LoadBalancerIP : String
  LoadBalancerSourceRanges : List String
  ExternalTrafficPolicy : String
  ExternalIPs : List String
  Type_ : String
  Labels : List (String × String)
  Ports : List ServicePort

/-- Modelled from the spec: `v2.GatewayConfig`; `none` is a nil pointer. -/
structure GatewayConfig where
  Enabled : Option Bool
  Namespace : String
  RouterMode : String
  RequestedNetworkView : List String
  Service : GatewayServiceConfig
  EnableSDS : Option Bool
  Runtime : Option ComponentRuntimeConfig
  Volumes : List VolumeConfig

/-- Modelled from the spec: the constant `v2.RouterModeTypeSNIDNAT`. -/
def RouterModeTypeSNIDNAT : String := "sni-dnat"

/-- The constant `corev1.ServiceExternalTrafficPolicyTypeLocal`. -/
def ServiceExternalTrafficPolicyTypeLocal : String := "Local"

/-- Modelled from the spec: the conversions that `gatewayConfigToValues` calls and that
are defined elsewhere in the package: `populateRuntimeValues`, `toValues` and
`sliceToValues` (here on the service ports it is called with). -/
structure Converters where
  populateRuntimeValues :
    ComponentRuntimeConfig → List (String × Value) → Except Error (List (String × Value))
  toValues : Value → Except Error (List (String × Value))
  sliceToValues : List ServicePort → Except Error (List Value)

/-! ## Mesh-expansion ports -/

/-- The variable `meshExpansionPortsV11` (lines 19-40). -/
def meshExpansionPortsV11 : List ServicePort :=
  [ { Name := "tcp-pilot-grpc-tls", Protocol := "", Port := 15011, TargetPort := .int 15011,
      NodePort := 0 },
    { Name := "tcp-mixer-grpc-tls", Protocol := "", Port := 15004, TargetPort := .int 15004,
      NodePort := 0 },
    { Name := "tcp-citadel-grpc-tls", Protocol := "", Port := 8060, TargetPort := .int 8060,
      NodePort := 0 },
    { Name := "tcp-dns-tls", Protocol := "", Port := 853, TargetPort := .int 8853,
      NodePort := 0 } ]

/-- The variable `meshExpansionPortsV20` (lines 41-52). -/
def meshExpansionPortsV20 : List ServicePort :=
  [ { Name := "tcp-istiod", Protocol := "", Port := 15012, TargetPort := .int 15012,
      NodePort := 0 },
    { Name := "tcp-dns-tls", Protocol := "", Port := 853, TargetPort := .int 8853,
      NodePort := 0 } ]

/-- The inner loop of `addExpansionPorts` (lines 356-361) from `index` on, with
`fuel = portCount - index` rounds left, on the current `*in`. Leaving the loop through
`continue PortsLoop` and leaving it at `index = portCount` both go on with the next port,
so both return the current list. The index is always below the length of the list (Go
would panic otherwise), so the branch `none` is never taken. -/
def addExpansionPortsInner (port : ServicePort) :
    (index fuel : Nat) → List ServicePort → List ServicePort
  | _, 0, cur => cur
  | index, fuel + 1, cur =>
    match cur.get? index with
    | none => cur
    | some q =>
      if port.Port = q.Port then cur
      else addExpansionPortsInner port (index + 1) fuel (cur ++ [port])

/-- Function `addExpansionPorts` (lines 352-363): the list `*in` after the call. -/
def addExpansionPorts (in_ : List ServicePort) (ports : List ServicePort) :
    List ServicePort :=
  let portCount := in_.length
  ports.foldl (fun cur port => addExpansionPortsInner port 0 portCount cur) in_

/-! ## GatewayConfig to Helm values and back -/

/-- The values written for a container of the runtime configuration: `sds.image` and
`sds.resources` for "ingress-sds" (lines 212-229). -/
def sdsContainerValues (conv : Converters) (values : List (String × Value))
    (sdsContainer : ContainerConfig) : Except Error (List (String × Value)) := do
  let values ←
    if sdsContainer.Image ≠ "" then setHelmStringValue values "sds.image" sdsContainer.Image
    else pure values
  match sdsContainer.Resources with
  | some resources => do
    let resourcesValues ← conv.toValues resources
    if resourcesValues.length > 0 then
      setHelmValue values "sds.resources" (.map resourcesValues)
    else pure values
  | none => pure values

/-- The values written for the container "istio-proxy": `resources` (lines 231-243). -/
def proxyContainerValues (conv : Converters) (values : List (String × Value))
    (proxyContainer : ContainerConfig) : Except Error (List (String × Value)) :=
  match proxyContainer.Resources with
  | some resources => do
    let resourcesValues ← conv.toValues resources
    if resourcesValues.length > 0 then setHelmValue values "resources" (.map resourcesValues)
    else pure values
  | none => pure values

/-- The entry appended to `configVolumes` for a volume (lines 253-257). -/
def configVolumeEntry (volume : VolumeConfig) : Value :=
  .map [("name", .string volume.MountName), ("configMapName", .string volume.VolumeName),
    ("mountPath", .string volume.MountPath)]

/-- The entry appended to `secretVolumes` for a volume (lines 259-263). -/
def secretVolumeEntry (volume : VolumeConfig) : Value :=
  .map [("name", .string volume.MountName), ("secretName", .string volume.VolumeName),
    ("mountPath", .string volume.MountPath)]

/-- Function `gatewayConfigToValues` (lines 120-280): the values, or the first error of a
helper. -/
def gatewayConfigToValues (conv : Converters) (in_ : GatewayConfig) :
    Except Error (List (String × Value)) := do
  let values : List (String × Value) := []
  let values ←
    match in_.Enabled with
    | some enabled => setHelmBoolValue values "enabled" enabled
    | none => pure values
  let values ←
    if in_.Namespace ≠ "" then setHelmStringValue values "namespace" in_.Namespace
    else pure values
  let values ←
    if in_.RouterMode = "" then
      setHelmStringValue values "env.ISTIO_META_ROUTER_MODE" RouterModeTypeSNIDNAT
    else setHelmStringValue values "env.ISTIO_META_ROUTER_MODE" in_.RouterMode
  let values ←
    if in_.RequestedNetworkView.length > 0 then
      setHelmStringValue values "env.ISTIO_META_REQUESTED_NETWORK_VIEW"
        ("\"" ++ ",".intercalate in_.RequestedNetworkView ++ "\"")
    else pure values
  let values ←
    if in_.Service.LoadBalancerIP ≠ "" then
      setHelmStringValue values "loadBalancerIP" in_.Service.LoadBalancerIP
    else pure values
  let values ←
    if in_.Service.LoadBalancerSourceRanges.length > 0 then
      setHelmStringSliceValue values "loadBalancerSourceRanges"
        in_.Service.LoadBalancerSourceRanges
    else pure values
  let values ←
    if in_.Service.ExternalTrafficPolicy ≠ "" then
      setHelmStringValue values "externalTrafficPolicy" in_.Service.ExternalTrafficPolicy
    else pure values
  let values ←
    if in_.Service.ExternalIPs.length > 0 then
      setHelmStringSliceValue values "externalIPs" in_.Service.ExternalIPs
    else pure values
  let values ←
    if in_.Service.Type_ ≠ "" then setHelmStringValue values "type" in_.Service.Type_
    else pure values
  let values ←
    if in_.Service.Labels.length > 0 then
      setHelmStringMapValue values "labels" in_.Service.Labels
    else pure values
  let values ←
    if in_.Service.Ports.length > 0 then do
      let portsValue ← conv.sliceToValues in_.Service.Ports
      if portsValue.length > 0 then setHelmValue values "ports" (.slice portsValue)
      else pure values
    else pure values
  let values ←
    match in_.EnableSDS with
    | some enableSDS => setHelmBoolValue values "sds.enable" enableSDS
    | none => pure values
  let values ←
    match in_.Runtime with
    | some runtime => do
      let values ← conv.populateRuntimeValues runtime values
      match runtime.Containers with
      | some containers => do
        let values ←
          match containers.lookup "ingress-sds" with
          | some sdsContainer => sdsContainerValues conv values sdsContainer
          | none => pure values
        match containers.lookup "istio-proxy" with
        | some proxyContainer => proxyContainerValues conv values proxyContainer
        | none => pure values
      | none => pure values
    | none => pure values
  if in_.Volumes.length > 0 then do
    let configVolumes :=
      (in_.Volumes.filter fun volume => volume.ConfigMap.isSome).map configVolumeEntry
    let secretVolumes :=
      (in_.Volumes.filter fun volume =>
        !volume.ConfigMap.isSome && volume.Secret.isSome).map secretVolumeEntry
    let values ←
      if configVolumes.length > 0 then setHelmValue values "configVolumes" (.slice configVolumes)
      else pure values
    if secretVolumes.length > 0 then setHelmValue values "secretVolumes" (.slice secretVolumes)
    else pure values
  else pure values

/-- Function `gatewayValuesToConfig` (lines 312-336): `*out` after the call; the returned
error is always nil. -/
def gatewayValuesToConfig (in_ : List (String × Value)) (out : GatewayConfig) :
    GatewayConfig :=
  let routerMode := getHelmStringValue in_ "env.ISTIO_META_ROUTER_MODE"
  let externalTrafficPolicy := getHelmStringValue in_ "externalTrafficPolicy"
  { out with
    Enabled := getHelmBoolValue in_ "enabled"
    Namespace := getHelmStringValue in_ "namespace"
    RequestedNetworkView :=
      stringsSplit (getHelmStringValue in_ "env.ISTIO_META_REQUESTED_NETWORK_VIEW") ','
    RouterMode := if routerMode ≠ "" then routerMode else RouterModeTypeSNIDNAT
    EnableSDS := getHelmBoolValue in_ "sds.enabled"
    Service :=
      { LoadBalancerIP := getHelmStringValue in_ "loadBalancerIP"
        LoadBalancerSourceRanges := getHelmStringSliceValue in_ "loadBalancerSourceRanges"
        ExternalTrafficPolicy :=
          if externalTrafficPolicy ≠ "" then externalTrafficPolicy
          else ServiceExternalTrafficPolicyTypeLocal
        ExternalIPs := getHelmStringSliceValue in_ "externalIPs"
        Type_ := ""
        Labels := getHelmStringMapValue in_ "labels"
        Ports := [] } }

/-! ## Concrete inputs -/

/-- The GatewayConfig with every field at its zero value. -/
def zeroGatewayConfig : GatewayConfig :=
  { Enabled := none, Namespace := "", RouterMode := "", RequestedNetworkView := [],
    Service :=
      { LoadBalancerIP := "", LoadBalancerSourceRanges := [], ExternalTrafficPolicy := "",
        ExternalIPs := [], Type_ := "", Labels := [], Ports := [] },
    EnableSDS := none, Runtime := none, Volumes := [] }

/-- A GatewayConfig that enables SDS and leaves every other field at its zero value. -/
def sdsEnabledConfig : GatewayConfig :=
  { zeroGatewayConfig with EnableSDS := some true }

/-- The service port "http2" on 80. -/
def portHttp : ServicePort :=
  { Name := "http2", Protocol := "", Port := 80, TargetPort := .int 8080, NodePort := 0 }

/-- The service port "https" on 443. -/
def portHttps : ServicePort :=
  { Name := "https", Protocol := "", Port := 443, TargetPort := .int 8443, NodePort := 0 }

/-- A service port "tls" on 853, the port number of "tcp-dns-tls". -/
def portTls : ServicePort :=
  { Name := "tls", Protocol := "", Port := 853, TargetPort := .int 853, NodePort := 0 }

end Conversion

namespace Readiness

/-! ## Lemmas on the condition set and the ReadinessMap -/

theorem find_upsertCondition (condition : Condition) (l : List Condition) :
    (upsertCondition condition l).find? (fun c => c.Type_ = condition.Type_) = some condition := by
  induction l with
  | nil => simp [upsertCondition]
  | cons c rest ih =>
    by_cases h : c.Type_ = condition.Type_
    · simp [upsertCondition, h]
    · simp [upsertCondition, h, List.find?_cons, ih]

theorem GetCondition_SetCondition (s : StatusType) (condition : Condition) :
    (s.SetCondition condition).GetCondition condition.Type_ = condition := by
  simp [StatusType.GetCondition, StatusType.SetCondition, find_upsertCondition]

theorem mem_unreadyComponentsOf (m : ReadinessMap) (c : String) :
    c ∈ unreadyComponentsOf m ↔ mapGet m c = true := by
  unfold unreadyComponentsOf mapGet
  constructor
  · intro h
    obtain ⟨e, he, rfl⟩ := List.mem_map.1 h
    obtain ⟨hmem, hflag⟩ := List.mem_filter.1 he
    obtain ⟨k, b⟩ := e
    have hb : b = true := by simpa using hflag
    subst hb
    have : true ∈ m.lookup k := AList.mem_lookup_iff.2 hmem
    simp [Option.mem_def.1 this]
  · intro h
    cases hl : m.lookup c with
    | none => simp [hl] at h
    | some b =>
      have hb : b = true := by simpa [hl] using h
      subst hb
      have hmem : (⟨c, true⟩ : Sigma fun _ : String => Bool) ∈ m.entries :=
        AList.mem_lookup_iff.1 (Option.mem_def.2 hl)
      exact List.mem_map.2 ⟨⟨c, true⟩, List.mem_filter.2 ⟨hmem, rfl⟩, rfl⟩

theorem unready_length_pos_iff (m : ReadinessMap) :
    (unreadyComponentsOf m).length > 0 ↔ ∃ c, mapGet m c = true := by
  rw [gt_iff_lt, List.length_pos_iff_exists_mem]
  exact exists_congr (mem_unreadyComponentsOf m)

/-! ## The orchestrator -/

/-- C1: error precedence of `UpdateReadiness`. For every outcome `(update, err)` of the
transition step and every outcome `statusErr` of `PostStatus`: a non-nil probe error is
returned as it is, also when persistence failed; with no probe error the persistence error
is returned when persistence was attempted (`update` and not skipped) and failed; in every
other case the result is nil. The last part says that `UpdateReadiness` is this step run on
the outcome of `updateReadinessStatus`. -/
theorem C1_error_precedence (update : Bool) (err statusErr : Option Error)
    (r : controlPlaneInstanceReconciler) :
    (err ≠ none → (UpdateReadinessWith update err statusErr r).1 = err) ∧
    (err = none → update = true → r.skipStatusUpdate = false → statusErr ≠ none →
      (UpdateReadinessWith update err statusErr r).1 = statusErr) ∧
    (err = none → ¬ (update = true ∧ r.skipStatusUpdate = false ∧ statusErr ≠ none) →
      (UpdateReadinessWith update err statusErr r).1 = none) ∧
    UpdateReadiness statusErr r =
      UpdateReadinessWith (updateReadinessStatus r).1 (updateReadinessStatus r).2.1 statusErr
        (updateReadinessStatus r).2.2 := by
  refine ⟨?_, ?_, ?_, rfl⟩
  · intro h
    cases err with
    | none => exact absurd rfl h
    | some e =>
      unfold UpdateReadinessWith
      split
      · cases statusErr <;> rfl
      · rfl
  · intro he hu hs hne
    subst he
    cases statusErr with
    | none => exact absurd rfl hne
    | some se => simp [UpdateReadinessWith, hu, hs]
  · intro he hn
    subst he
    unfold UpdateReadinessWith
    split
    · rename_i hc
      cases statusErr with
      | none => rfl
      | some se =>
        exfalso
        apply hn
        simp at hc
        exact ⟨hc.1, hc.2, by simp⟩
    · rfl

/-- C1 at three passes of the idle reconciler: probe and persistence both fail (the probe
error comes back), only persistence fails (its error comes back), persistence fails but
was not requested (nil comes back). -/
theorem C1_error_precedence_witness :
    (UpdateReadinessWith true (some ⟨"probe"⟩) (some ⟨"store"⟩) idleReconciler).1
      = some ⟨"probe"⟩ ∧
    (UpdateReadinessWith true none (some ⟨"store"⟩) idleReconciler).1 = some ⟨"store"⟩ ∧
    (UpdateReadinessWith false none (some ⟨"store"⟩) idleReconciler).1 = none :=
  ⟨(C1_error_precedence true (some ⟨"probe"⟩) (some ⟨"store"⟩) idleReconciler).1 (by decide),
   (C1_error_precedence true none (some ⟨"store"⟩) idleReconciler).2.1 rfl rfl rfl (by decide),
   (C1_error_precedence false none (some ⟨"store"⟩) idleReconciler).2.2.1 rfl (by decide)⟩

/-! ## The transition engine -/

/-- The success path of `updateReadinessStatusWith` when some component is not ready. -/
theorem updateReadinessStatusWith_unready (m : ReadinessMap)
    (r : controlPlaneInstanceReconciler) (h : ∃ c, mapGet m c = true) :
    updateReadinessStatusWith m none r =
      if (r.Status.GetCondition .Ready).Status ≠ .False then
        (true, none,
          { r with
            Status := r.Status.SetCondition
              { Type_ := .Ready, Status := .False, Reason := .ComponentsNotReady,
                Message := "Some components are not fully available" }
            EventRecorder := r.EventRecorder ++ [⟨.Warning, .NotReady,
              "The following components are not fully available: " ++
                sprintStrings (unreadyComponentsOf m)⟩] })
      else (false, none, r) := by
  have hpos := (unready_length_pos_iff m).2 h
  simp only [updateReadinessStatusWith, hpos, if_true]

/-- The success path of `updateReadinessStatusWith` when no component is not ready. -/
theorem updateReadinessStatusWith_ready (m : ReadinessMap)
    (r : controlPlaneInstanceReconciler) (h : ¬ ∃ c, mapGet m c = true) :
    updateReadinessStatusWith m none r =
      if (r.Status.GetCondition .Ready).Status ≠ .True then
        (true, none,
          { r with
            Status := r.Status.SetCondition
              { Type_ := .Ready, Status := .True, Reason := .ComponentsReady,
                Message := "All component deployments are Available" }
            EventRecorder := r.EventRecorder ++ [⟨.Normal, .Ready,
              "All component deployments are Available"⟩] })
      else (false, none, r) := by
  have hpos : ¬ (unreadyComponentsOf m).length > 0 := fun hp => h ((unready_length_pos_iff m).1 hp)
  simp only [updateReadinessStatusWith, hpos, if_false]

/-- C2: the transition table of the success path. With no aggregation error, when some
component has a true not-ready flag and the stored Ready status is not False, the Ready
condition becomes False / ComponentsNotReady, persistence is requested, exactly one event
is emitted and it is a Warning; when no component has a true flag and the stored Ready
status is not True, the Ready condition becomes True / ComponentsReady, persistence is
requested, exactly one event is emitted and it is Normal; the returned error is nil in
every case. -/
theorem C2_success_transition (m : ReadinessMap) (r : controlPlaneInstanceReconciler) :
    ((∃ c, mapGet m c = true) → (r.Status.GetCondition .Ready).Status ≠ .False →
      ((updateReadinessStatusWith m none r).2.2.Status.GetCondition .Ready).Type_ = .Ready ∧
      ((updateReadinessStatusWith m none r).2.2.Status.GetCondition .Ready).Status = .False ∧
      ((updateReadinessStatusWith m none r).2.2.Status.GetCondition .Ready).Reason
        = .ComponentsNotReady ∧
      (updateReadinessStatusWith m none r).1 = true ∧
      (updateReadinessStatusWith m none r).2.1 = none ∧
      ∃ e, (updateReadinessStatusWith m none r).2.2.EventRecorder = r.EventRecorder ++ [e] ∧
        e.eventtype = .Warning) ∧
    ((¬ ∃ c, mapGet m c = true) → (r.Status.GetCondition .Ready).Status ≠ .True →
      ((updateReadinessStatusWith m none r).2.2.Status.GetCondition .Ready).Type_ = .Ready ∧
      ((updateReadinessStatusWith m none r).2.2.Status.GetCondition .Ready).Status = .True ∧
      ((updateReadinessStatusWith m none r).2.2.Status.GetCondition .Ready).Reason
        = .ComponentsReady ∧
      (updateReadinessStatusWith m none r).1 = true ∧
      (updateReadinessStatusWith m none r).2.1 = none ∧
      ∃ e, (updateReadinessStatusWith m none r).2.2.EventRecorder = r.EventRecorder ++ [e] ∧
        e.eventtype = .Normal) ∧
    (updateReadinessStatusWith m none r).2.1 = none := by
  refine ⟨?_, ?_, ?_⟩
  · intro h hs
    rw [updateReadinessStatusWith_unready m r h, if_pos hs]
    have hg := GetCondition_SetCondition r.Status
      { Type_ := .Ready, Status := .False, Reason := .ComponentsNotReady,
        Message := "Some components are not fully available" }
    simp only at hg
    simp [hg]
  · intro h hs
    rw [updateReadinessStatusWith_ready m r h, if_pos hs]
    have hg := GetCondition_SetCondition r.Status
      { Type_ := .Ready, Status := .True, Reason := .ComponentsReady,
        Message := "All component deployments are Available" }
    simp only at hg
    simp [hg]
  · by_cases h : ∃ c, mapGet m c = true
    · rw [updateReadinessStatusWith_unready m r h]
      split_ifs <;> rfl
    · rw [updateReadinessStatusWith_ready m r h]
      split_ifs <;> rfl

/-- C2 at the idle reconciler (no stored condition, so the stored status reads Unknown):
the map with "istiod" not ready moves Ready to False, the empty map moves it to True. -/
theorem C2_success_transition_witness :
    ((updateReadinessStatusWith istiodNotReady none
        idleReconciler).2.2.Status.GetCondition .Ready).Status = .False ∧
    ((updateReadinessStatusWith ∅ none
        idleReconciler).2.2.Status.GetCondition .Ready).Status = .True :=
  ⟨((C2_success_transition istiodNotReady idleReconciler).1
      ⟨"istiod", by decide⟩ (by decide)).2.1,
   ((C2_success_transition ∅ idleReconciler).2.1
      (by simp [mapGet]) (by decide)).2.1⟩

/-- After a success-path run the stored Ready status is False when a component is unready. -/
theorem status_after_success_unready (m : ReadinessMap) (r : controlPlaneInstanceReconciler)
    (h : ∃ c, mapGet m c = true) :
    ((updateReadinessStatusWith m none r).2.2.Status.GetCondition .Ready).Status = .False := by
  rw [updateReadinessStatusWith_unready m r h]
  by_cases hs : (r.Status.GetCondition .Ready).Status ≠ .False
  · rw [if_pos hs]
    have hg := GetCondition_SetCondition r.Status
      { Type_ := .Ready, Status := .False, Reason := .ComponentsNotReady,
        Message := "Some components are not fully available" }
    simp only at hg
    simp [hg]
  · rw [if_neg hs]
    exact not_not.1 hs

/-- After a success-path run the stored Ready status is True when no component is unready. -/
theorem status_after_success_ready (m : ReadinessMap) (r : controlPlaneInstanceReconciler)
    (h : ¬ ∃ c, mapGet m c = true) :
    ((updateReadinessStatusWith m none r).2.2.Status.GetCondition .Ready).Status = .True := by
  rw [updateReadinessStatusWith_ready m r h]
  by_cases hs : (r.Status.GetCondition .Ready).Status ≠ .True
  · rw [if_pos hs]
    have hg := GetCondition_SetCondition r.Status
      { Type_ := .Ready, Status := .True, Reason := .ComponentsReady,
        Message := "All component deployments are Available" }
    simp only at hg
    simp [hg]
  · rw [if_neg hs]
    exact not_not.1 hs

/-- A success-path run started from the state a run on the same map left is a no-op. -/
theorem updateReadinessStatusWith_twice (m : ReadinessMap)
    (r : controlPlaneInstanceReconciler) :
    updateReadinessStatusWith m none (updateReadinessStatusWith m none r).2.2 =
      (false, none, (updateReadinessStatusWith m none r).2.2) := by
  by_cases h : ∃ c, mapGet m c = true
  · rw [updateReadinessStatusWith_unready m _ h,
      if_neg (not_not.2 (status_after_success_unready m r h))]
  · rw [updateReadinessStatusWith_ready m _ h,
      if_neg (not_not.2 (status_after_success_ready m r h))]

/-- The aggregation reads the client and the CNI flag of the receiver and nothing else. -/
theorem calculateNotReadyState_congr (r r1 : controlPlaneInstanceReconciler)
    (hc : r1.Client = r.Client) (hf : r1.IsCNIEnabled = r.IsCNIEnabled) :
    calculateNotReadyState r1 = calculateNotReadyState r := by
  simp only [calculateNotReadyState, calculateNotReadyStateForType,
    calculateNotReadyStateForCNI, hc, hf]

/-- What `updateReadinessStatusWith` leaves untouched. -/
theorem updateReadinessStatusWith_frame (m : ReadinessMap) (err : Option Error)
    (r : controlPlaneInstanceReconciler) :
    (updateReadinessStatusWith m err r).2.2.Client = r.Client ∧
    (updateReadinessStatusWith m err r).2.2.IsCNIEnabled = r.IsCNIEnabled ∧
    (updateReadinessStatusWith m err r).2.2.skipStatusUpdate = r.skipStatusUpdate ∧
    (updateReadinessStatusWith m err r).2.2.listCalls = r.listCalls ∧
    (updateReadinessStatusWith m err r).2.2.postStatusCalls = r.postStatusCalls := by
  unfold updateReadinessStatusWith
  cases err with
  | some e => exact ⟨rfl, rfl, rfl, rfl, rfl⟩
  | none =>
    dsimp only
    split_ifs <;> exact ⟨rfl, rfl, rfl, rfl, rfl⟩

/-- What `UpdateReadinessWith` leaves untouched. -/
theorem UpdateReadinessWith_frame (update : Bool) (err statusErr : Option Error)
    (r : controlPlaneInstanceReconciler) :
    (UpdateReadinessWith update err statusErr r).2.Client = r.Client ∧
    (UpdateReadinessWith update err statusErr r).2.IsCNIEnabled = r.IsCNIEnabled ∧
    (UpdateReadinessWith update err statusErr r).2.skipStatusUpdate = r.skipStatusUpdate ∧
    (UpdateReadinessWith update err statusErr r).2.Status = r.Status ∧
    (UpdateReadinessWith update err statusErr r).2.EventRecorder = r.EventRecorder ∧
    (UpdateReadinessWith update err statusErr r).2.listCalls = r.listCalls := by
  unfold UpdateReadinessWith
  split_ifs
  · cases statusErr <;> cases err <;> exact ⟨rfl, rfl, rfl, rfl, rfl, rfl⟩
  · exact ⟨rfl, rfl, rfl, rfl, rfl, rfl⟩

/-- With `update = false` the orchestrator does nothing. -/
theorem UpdateReadinessWith_false (err statusErr : Option Error)
    (r : controlPlaneInstanceReconciler) :
    UpdateReadinessWith false err statusErr r = (err, r) := by
  simp [UpdateReadinessWith]

/-- A success-path run is a no-op when the stored Ready status already tells whether a
component is unready. -/
theorem updateReadinessStatusWith_noop (m : ReadinessMap) (r : controlPlaneInstanceReconciler)
    (hF : (∃ c, mapGet m c = true) → (r.Status.GetCondition .Ready).Status = .False)
    (hT : (¬ ∃ c, mapGet m c = true) → (r.Status.GetCondition .Ready).Status = .True) :
    updateReadinessStatusWith m none r = (false, none, r) := by
  by_cases h : ∃ c, mapGet m c = true
  · rw [updateReadinessStatusWith_unready m r h, if_neg (not_not.2 (hF h))]
  · rw [updateReadinessStatusWith_ready m r h, if_neg (not_not.2 (hT h))]

/-- A pass whose listings succeed, started from a state whose stored Ready status already
tells whether a component is unready, only records its listings. -/
theorem UpdateReadiness_noop (statusErr : Option Error) (r : controlPlaneInstanceReconciler)
    (hok : (calculateNotReadyState r).2.1 = none)
    (hF : (∃ c, mapGet (calculateNotReadyState r).1 c = true) →
      (r.Status.GetCondition .Ready).Status = .False)
    (hT : (¬ ∃ c, mapGet (calculateNotReadyState r).1 c = true) →
      (r.Status.GetCondition .Ready).Status = .True) :
    UpdateReadiness statusErr r =
      (none, { r with listCalls := r.listCalls ++ (calculateNotReadyState r).2.2 }) := by
  unfold UpdateReadiness updateReadinessStatus
  rcases hcalc : calculateNotReadyState r with ⟨m, err, calls⟩
  rw [hcalc] at hok hF hT
  simp only at hok hF hT
  subst hok
  simp only
  rw [updateReadinessStatusWith_noop m { r with listCalls := r.listCalls ++ calls } hF hT]
  exact UpdateReadinessWith_false none statusErr _

/-- The state after a pass whose listings succeed: the client and the CNI flag are as
before and the stored Ready status tells whether a component is unready. -/
theorem UpdateReadiness_settles (statusErr : Option Error) (r : controlPlaneInstanceReconciler)
    (hok : (calculateNotReadyState r).2.1 = none) :
    (UpdateReadiness statusErr r).2.Client = r.Client ∧
    (UpdateReadiness statusErr r).2.IsCNIEnabled = r.IsCNIEnabled ∧
    ((∃ c, mapGet (calculateNotReadyState r).1 c = true) →
      ((UpdateReadiness statusErr r).2.Status.GetCondition .Ready).Status = .False) ∧
    ((¬ ∃ c, mapGet (calculateNotReadyState r).1 c = true) →
      ((UpdateReadiness statusErr r).2.Status.GetCondition .Ready).Status = .True) := by
  unfold UpdateReadiness updateReadinessStatus
  rcases hcalc : calculateNotReadyState r with ⟨m, err, calls⟩
  rw [hcalc] at hok
  simp only at hok
  subst hok
  simp only
  generalize hr1 : ({ r with listCalls := r.listCalls ++ calls } :
    controlPlaneInstanceReconciler) = r1
  have hc1 : r1.Client = r.Client := by rw [← hr1]
  have hf1 : r1.IsCNIEnabled = r.IsCNIEnabled := by rw [← hr1]
  obtain ⟨fc, ff, -, -, -⟩ := updateReadinessStatusWith_frame m none r1
  obtain ⟨gc, gf, -, gs, -, -⟩ := UpdateReadinessWith_frame
    (updateReadinessStatusWith m none r1).1 (updateReadinessStatusWith m none r1).2.1 statusErr
    (updateReadinessStatusWith m none r1).2.2
  refine ⟨by rw [gc, fc, hc1], by rw [gf, ff, hf1], ?_, ?_⟩
  · intro h
    rw [gs]
    exact status_after_success_unready m r1 h
  · intro h
    rw [gs]
    exact status_after_success_ready m r1 h

/-- C3: steady state is a no-op. A success-path run of the transition step on a map,
started from the state that a run on the same map left, returns shouldPersist = false and
no error and leaves the whole state (condition set and recorded events included) as it
was. Hence, when the listings of the cluster succeed, a second `UpdateReadiness` pass over
the same cluster makes no `PostStatus` call, records no event and leaves the condition
set unchanged, whatever `PostStatus` returned in the first pass. -/
theorem C3_steady_state (m : ReadinessMap) (r : controlPlaneInstanceReconciler)
    (statusErr1 statusErr2 : Option Error) :
    updateReadinessStatusWith m none (updateReadinessStatusWith m none r).2.2 =
      (false, none, (updateReadinessStatusWith m none r).2.2) ∧
    ((calculateNotReadyState r).2.1 = none →
      (UpdateReadiness statusErr2 (UpdateReadiness statusErr1 r).2).2.postStatusCalls =
        (UpdateReadiness statusErr1 r).2.postStatusCalls ∧
      (UpdateReadiness statusErr2 (UpdateReadiness statusErr1 r).2).2.EventRecorder =
        (UpdateReadiness statusErr1 r).2.EventRecorder ∧
      (UpdateReadiness statusErr2 (UpdateReadiness statusErr1 r).2).2.Status =
        (UpdateReadiness statusErr1 r).2.Status) := by
  refine ⟨updateReadinessStatusWith_twice m r, ?_⟩
  intro hok
  obtain ⟨hc, hf, hF, hT⟩ := UpdateReadiness_settles statusErr1 r hok
  have hcalc := calculateNotReadyState_congr r (UpdateReadiness statusErr1 r).2 hc hf
  rw [UpdateReadiness_noop statusErr2 (UpdateReadiness statusErr1 r).2
    (by rw [hcalc]; exact hok) (by rw [hcalc]; exact hF) (by rw [hcalc]; exact hT)]
  exact ⟨rfl, rfl, rfl⟩

/-- C3 at the idle reconciler: its listings succeed, the first pass fails to persist, and
the second pass still makes no `PostStatus` call and records no event. -/
theorem C3_steady_state_witness :
    (UpdateReadiness none (UpdateReadiness (some ⟨"store"⟩) idleReconciler).2).2.postStatusCalls
      = (UpdateReadiness (some ⟨"store"⟩) idleReconciler).2.postStatusCalls ∧
    (UpdateReadiness none (UpdateReadiness (some ⟨"store"⟩) idleReconciler).2).2.EventRecorder
      = (UpdateReadiness (some ⟨"store"⟩) idleReconciler).2.EventRecorder ∧
    (UpdateReadiness none (UpdateReadiness (some ⟨"store"⟩) idleReconciler).2).2.Status
      = (UpdateReadiness (some ⟨"store"⟩) idleReconciler).2.Status :=
  (C3_steady_state ∅ idleReconciler (some ⟨"store"⟩) none).2 (by decide)

/-- C4: the probe-error path is level-triggered. For every aggregation error `e`, every
map and every state (so every stored Ready condition, one that is already Unknown /
ProbeError with the same message included), the transition step returns
(shouldPersist = true, `e`), stores the Ready condition Unknown / ProbeError with the
message "Error collecting ready state: " followed by the text of `e`, and appends exactly
one Warning event; run again on the state it left, it does all of that again. The last
part says that `updateReadinessStatus` is this step run on the outcome of
`calculateNotReadyState`. -/
theorem C4_probe_error_level_triggered (m : ReadinessMap) (e : Error)
    (r : controlPlaneInstanceReconciler) :
    (updateReadinessStatusWith m (some e) r).1 = true ∧
    (updateReadinessStatusWith m (some e) r).2.1 = some e ∧
    (updateReadinessStatusWith m (some e) r).2.2.Status.GetCondition .Ready =
      { Type_ := .Ready, Status := .Unknown, Reason := .ProbeError,
        Message := "Error collecting ready state: " ++ e.msg } ∧
    (updateReadinessStatusWith m (some e) r).2.2.EventRecorder =
      r.EventRecorder ++ [⟨.Warning, .NotReady, "Error collecting ready state: " ++ e.msg⟩] ∧
    (updateReadinessStatusWith m (some e) (updateReadinessStatusWith m (some e) r).2.2).1
      = true ∧
    (updateReadinessStatusWith m (some e)
        (updateReadinessStatusWith m (some e) r).2.2).2.2.EventRecorder =
      r.EventRecorder ++ [⟨.Warning, .NotReady, "Error collecting ready state: " ++ e.msg⟩,
        ⟨.Warning, .NotReady, "Error collecting ready state: " ++ e.msg⟩] ∧
    updateReadinessStatus r =
      updateReadinessStatusWith (calculateNotReadyState r).1 (calculateNotReadyState r).2.1
        { r with listCalls := r.listCalls ++ (calculateNotReadyState r).2.2 } := by
  have hg := GetCondition_SetCondition r.Status
    { Type_ := .Ready, Status := .Unknown, Reason := .ProbeError,
      Message := "Error collecting ready state: " ++ e.msg }
  simp only at hg
  refine ⟨rfl, rfl, ?_, rfl, rfl, ?_, rfl⟩
  · simpa [updateReadinessStatusWith] using hg
  · simp [updateReadinessStatusWith]

/-! ## The aggregator -/

/-- C5 as stated fails when the failing kind is the CNI DaemonSet. In a cluster with no
owned resources and CNI enabled, the three owned-resource listings succeed and merge
nothing, so the contributions of the kinds evaluated before the CNI listing are the empty
map; the CNI listing fails, its error is returned, and the returned map is not that empty
map: it holds the entry "cni" = true, merged from the failing kind. -/
theorem C5_cni_failure_is_merged :
    (calculateNotReadyState cniListingFails).2.1 = some ⟨"timeout"⟩ ∧
    ([] : List Unstructured).foldl (mergeResource daemonSetReady)
      (([] : List Unstructured).foldl (mergeResource statefulSetReady)
        (([] : List Unstructured).foldl (mergeResource deploymentReady) ∅)) = ∅ ∧
    (calculateNotReadyState cniListingFails).1 ≠ ∅ ∧
    (calculateNotReadyState cniListingFails).1.lookup "cni" = some true := by
  refine ⟨by decide, rfl, ?_, by decide⟩
  intro h
  have hl := congrArg (fun m : ReadinessMap => m.lookup "cni") h
  revert hl
  decide

/-- C5, amended: fail-fast aggregation. The listings are sent in the order Deployment,
StatefulSet, DaemonSet, CNI. When the listing of Deployments, of StatefulSets or of
DaemonSets fails, no later listing is sent, the listing error is returned, and the
returned map is exactly the merge of the kinds listed before it (the empty map when the
Deployment listing fails). When those three succeed and, CNI being enabled, the CNI listing
fails, its error is returned and the returned map is the merge of the three kinds with the
key "cni" set to true. When the three owned-resource listings succeed, the listings sent
are those three, in that order, followed by the CNI listing if CNI is enabled. -/
theorem C5_fail_fast (r : controlPlaneInstanceReconciler) (e : Error) :
    (r.Client.deployments = .error e →
      calculateNotReadyState r = (∅, some e, [.owned .Deployment])) ∧
    (∀ ds, r.Client.deployments = .ok ds → r.Client.statefulSets = .error e →
      calculateNotReadyState r =
        (ds.foldl (mergeResource deploymentReady) ∅, some e,
          [.owned .Deployment, .owned .StatefulSet])) ∧
    (∀ ds ss, r.Client.deployments = .ok ds → r.Client.statefulSets = .ok ss →
      r.Client.daemonSets = .error e →
      calculateNotReadyState r =
        (ss.foldl (mergeResource statefulSetReady) (ds.foldl (mergeResource deploymentReady) ∅),
          some e, [.owned .Deployment, .owned .StatefulSet, .owned .DaemonSet])) ∧
    (∀ ds ss dss, r.Client.deployments = .ok ds → r.Client.statefulSets = .ok ss →
      r.Client.daemonSets = .ok dss → r.IsCNIEnabled = true →
      r.Client.cniDaemonSets = .error e →
      calculateNotReadyState r =
        (mapSet (dss.foldl (mergeResource daemonSetReady)
            (ss.foldl (mergeResource statefulSetReady)
              (ds.foldl (mergeResource deploymentReady) ∅))) "cni" true,
          some e, [.owned .Deployment, .owned .StatefulSet, .owned .DaemonSet, .cni])) ∧
    (∀ ds ss dss, r.Client.deployments = .ok ds → r.Client.statefulSets = .ok ss →
      r.Client.daemonSets = .ok dss →
      (calculateNotReadyState r).2.2 =
        [.owned .Deployment, .owned .StatefulSet, .owned .DaemonSet] ++
          (if r.IsCNIEnabled then [.cni] else [])) := by
  refine ⟨?_, ?_, ?_, ?_, ?_⟩
  · intro h
    simp [calculateNotReadyState, calculateNotReadyStateForType, FetchOwnedResources, h]
  · intro ds h1 h2
    simp [calculateNotReadyState, calculateNotReadyStateForType, FetchOwnedResources, h1, h2]
  · intro ds ss h1 h2 h3
    simp [calculateNotReadyState, calculateNotReadyStateForType, FetchOwnedResources, h1, h2,
      h3]
  · intro ds ss dss h1 h2 h3 h4 h5
    simp [calculateNotReadyState, calculateNotReadyStateForType, FetchOwnedResources,
      calculateNotReadyStateForCNI, h1, h2, h3, h4, h5]
  · intro ds ss dss h1 h2 h3
    cases hf : r.IsCNIEnabled with
    | false =>
      simp [calculateNotReadyState, calculateNotReadyStateForType, FetchOwnedResources,
        calculateNotReadyStateForCNI, h1, h2, h3, hf]
    | true =>
      cases hc : r.Client.cniDaemonSets <;>
        simp [calculateNotReadyState, calculateNotReadyStateForType, FetchOwnedResources,
          calculateNotReadyStateForCNI, h1, h2, h3, hf, hc]

/-- C5, amended, at two clusters: the Deployment listing fails (only that listing is sent,
the map is empty), and the CNI listing fails after three empty listings (four listings are
sent, the map is "cni" = true). -/
theorem C5_fail_fast_witness :
    calculateNotReadyState deploymentListingFails
      = (∅, some ⟨"timeout"⟩, [.owned .Deployment]) ∧
    calculateNotReadyState cniListingFails
      = (mapSet ∅ "cni" true, some ⟨"timeout"⟩,
          [.owned .Deployment, .owned .StatefulSet, .owned .DaemonSet, .cni]) :=
  ⟨(C5_fail_fast deploymentListingFails ⟨"timeout"⟩).1 rfl,
   (C5_fail_fast cniListingFails ⟨"timeout"⟩).2.2.2.1 [] [] [] rfl rfl rfl rfl rfl⟩

/-! ## The probes -/

/-- What `NestedString` returns on a path of one field. -/
theorem NestedString_one (m : List (String × Value)) (field : String) :
    (NestedString m [field]).1 =
      match Value.index m field with
      | some (.string s) => s
      | _ => "" := by
  unfold NestedString NestedFieldNoCopy
  cases h : Value.index m field with
  | none => simp
  | some v => cases v <;> simp [NestedFieldNoCopy]

/-- The loop of `deploymentReady` is decided by the first condition of type "Available". -/
theorem deploymentReadyLoop_iff (conds : List Value) :
    deploymentReadyLoop conds = true ↔
      ∃ c, conds.find? isAvailableCondition = some c ∧ hasStatusTrue c = true := by
  induction conds with
  | nil => simp [deploymentReadyLoop]
  | cons v rest ih =>
    cases v with
    | map m =>
      unfold deploymentReadyLoop
      simp only [NestedString_one]
      cases ht : Value.index m "type" with
      | none => simpa [isAvailableCondition, ht, List.find?_cons] using ih
      | some t =>
        cases t with
        | string s =>
          by_cases hs : s = "Available"
          · subst hs
            cases hv : Value.index m "status" with
            | none =>
              simp [isAvailableCondition, hasStatusTrue, ht, hv, List.find?_cons,
                (by decide : ¬ "" = "True")]
            | some w =>
              cases w <;>
                simp [isAvailableCondition, hasStatusTrue, ht, hv, List.find?_cons,
                  (by decide : ¬ "" = "True")]
          · simpa [isAvailableCondition, ht, hs, List.find?_cons] using ih
        | _ => simpa [isAvailableCondition, ht, List.find?_cons] using ih
    | _ => simpa [deploymentReadyLoop, isAvailableCondition, List.find?_cons] using ih

/-- C6 as stated fails on a list that holds a condition of type "Available" more than once:
in `twoAvailable` the list at `status.conditions` contains a condition of type "Available"
whose status is "True" (the second entry), and `deploymentReady` returns false, because
the first entry of type "Available" has status "False". -/
theorem C6_first_available_decides :
    ¬ (deploymentReady twoAvailable = true ↔
        ∃ st conds c, Value.index twoAvailable.Object "status" = some (.map st) ∧
          Value.index st "conditions" = some (.slice conds) ∧
          c ∈ conds ∧ isAvailableCondition c = true ∧ hasStatusTrue c = true) := by
  intro h
  have hf : deploymentReady twoAvailable = false := by decide
  rw [hf] at h
  refine Bool.false_ne_true (h.2 ⟨_, _, .map [("type", .string "Available"),
    ("status", .string "True")], rfl, rfl, ?_, by decide, by decide⟩)
  simp

/-- C6, amended: the Deployment probe. `deploymentReady` returns true if and only if
`status` is an object whose field `conditions` is a list and the first entry of that list
that is a condition of type "Available" has status "True". So a missing list, an empty
list and a list with no "Available" entry give false, and so does a list whose first
"Available" entry is not "True", whatever follows it. -/
theorem C6_deploymentReady_iff (deployment : Unstructured) :
    deploymentReady deployment = true ↔
      ∃ st conds c, Value.index deployment.Object "status" = some (.map st) ∧
        Value.index st "conditions" = some (.slice conds) ∧
        conds.find? isAvailableCondition = some c ∧ hasStatusTrue c = true := by
  unfold deploymentReady NestedSlice NestedFieldNoCopy
  cases hst : Value.index deployment.Object "status" with
  | none => simp
  | some v =>
    cases v with
    | map st =>
      simp only [NestedFieldNoCopy]
      cases hc : Value.index st "conditions" with
      | none => simp [hc]
      | some w =>
        cases w with
        | slice conds => simp [NestedFieldNoCopy, deploymentReadyLoop_iff, hc]
        | _ => simp [NestedFieldNoCopy, hc]
    | _ => simp [NestedFieldNoCopy]

/-- C7: the StatefulSet probe. `statefulSetReady` returns true if and only if `status` is
an object in which `replicas` and `readyReplicas` are both present as integers and
readyReplicas ≥ replicas; in every other case (a field absent or not an integer, `status`
absent or not an object) it returns false. -/
theorem C7_statefulSetReady_iff (statefulSet : Unstructured) :
    statefulSetReady statefulSet = true ↔
      ∃ st replicas readyReplicas,
        Value.index statefulSet.Object "status" = some (.map st) ∧
        Value.index st "replicas" = some (.int64 replicas) ∧
        Value.index st "readyReplicas" = some (.int64 readyReplicas) ∧
        readyReplicas ≥ replicas := by
  unfold statefulSetReady NestedInt64 NestedFieldNoCopy
  cases hst : Value.index statefulSet.Object "status" with
  | none => simp
  | some v =>
    cases v with
    | map st =>
      simp only [NestedFieldNoCopy]
      cases hr : Value.index st "replicas" with
      | none => simp [hr]
      | some w =>
        cases w with
        | int64 replicas =>
          cases hrr : Value.index st "readyReplicas" with
          | none => simp [NestedFieldNoCopy, hr, hrr]
          | some x => cases x <;> simp [NestedFieldNoCopy, hr, hrr]
        | _ => simp [NestedFieldNoCopy, hr]
    | _ => simp [NestedFieldNoCopy]

/-- C8 as stated fails on a document whose `status` is not an object: `statusIsString` has
no value at `status.numberUnavailable`, so the field is absent, and `daemonSetReady`
returns false, because reading the path fails. -/
theorem C8_unreadable_status_not_ready :
    ¬ (daemonSetReady statusIsString = true ↔
        ((¬ ∃ st v, Value.index statusIsString.Object "status" = some (.map st) ∧
            Value.index st "numberUnavailable" = some v) ∨
         (∃ st, Value.index statusIsString.Object "status" = some (.map st) ∧
            Value.index st "numberUnavailable" = some (.int64 0)))) := by
  intro h
  have hf : daemonSetReady statusIsString = false := by decide
  rw [hf] at h
  refine Bool.false_ne_true (h.2 (Or.inl ?_))
  rintro ⟨st, v, hst, -⟩
  simp [statusIsString, Value.index] at hst

/-- C8, amended: the DaemonSet probe. `daemonSetReady` returns true if and only if
`status` is absent, or `status` is an object in which `numberUnavailable` is absent or is
the integer zero. So a DaemonSet with no `status`, or with an object `status` that has no
`numberUnavailable`, is ready; a `numberUnavailable` that is present and not an integer
gives not-ready, and so does a `status` that is present and not an object (null, a string,
a number, a list). -/
theorem C8_daemonSetReady_iff (daemonSet : Unstructured) :
    daemonSetReady daemonSet = true ↔
      (Value.index daemonSet.Object "status" = none ∨
       ∃ st, Value.index daemonSet.Object "status" = some (.map st) ∧
         (Value.index st "numberUnavailable" = none ∨
          Value.index st "numberUnavailable" = some (.int64 0))) := by
  unfold daemonSetReady NestedInt64 NestedFieldNoCopy
  cases hst : Value.index daemonSet.Object "status" with
  | none => simp
  | some v =>
    cases v with
    | map st =>
      simp only [NestedFieldNoCopy]
      cases hr : Value.index st "numberUnavailable" with
      | none => simp [hr]
      | some w => cases w <;> simp [NestedFieldNoCopy, hr]
    | _ => simp [NestedFieldNoCopy]

/-! ## The scanner -/

/-- A resource without the component label leaves the map as it is. -/
theorem mergeResource_unlabeled (isReady : Unstructured → Bool) (m : ReadinessMap)
    (u : Unstructured) (h : GetLabel u KubernetesAppComponentKey = none) :
    mergeResource isReady m u = m := by
  simp [mergeResource, h]

/-- The scan of a list is the scan of its labeled resources. -/
theorem foldl_mergeResource_filter (isReady : Unstructured → Bool)
    (resources : List Unstructured) (m : ReadinessMap) :
    resources.foldl (mergeResource isReady) m =
      (resources.filter (fun u => (GetLabel u KubernetesAppComponentKey).isSome)).foldl
        (mergeResource isReady) m := by
  induction resources generalizing m with
  | nil => rfl
  | cons u rest ih =>
    cases h : GetLabel u KubernetesAppComponentKey with
    | none =>
      simp only [List.foldl_cons, List.filter_cons, h, Option.isSome_none, Bool.false_eq_true,
        if_false, mergeResource_unlabeled isReady m u h]
      exact ih m
    | some c =>
      simp only [List.foldl_cons, List.filter_cons, h, Option.isSome_some, if_true]
      exact ih _

/-- C9: resources without the component label are excluded. For every kind, every starting
map and every probe, when the listing returns `resources` the outcome of
`calculateNotReadyStateForType` is the outcome it has when the listing returns `resources`
with every resource lacking the component label removed; and a resource lacking the label
leaves every map exactly as it is (no key added, no flag changed), whatever its probe
result. -/
theorem C9_unlabeled_excluded (r r1 : controlPlaneInstanceReconciler) (gvk : Kind)
    (m : ReadinessMap) (isReady : Unstructured → Bool) (resources : List Unstructured)
    (h : FetchOwnedResources r.Client gvk = .ok resources)
    (h1 : FetchOwnedResources r1.Client gvk =
      .ok (resources.filter (fun u => (GetLabel u KubernetesAppComponentKey).isSome))) :
    calculateNotReadyStateForType r gvk m isReady =
      calculateNotReadyStateForType r1 gvk m isReady ∧
    ∀ (u : Unstructured) (m1 : ReadinessMap) (probe : Unstructured → Bool),
      GetLabel u KubernetesAppComponentKey = none → mergeResource probe m1 u = m1 := by
  refine ⟨?_, fun u m1 probe hu => mergeResource_unlabeled probe m1 u hu⟩
  simp only [calculateNotReadyStateForType, h, h1]
  rw [foldl_mergeResource_filter]

/-- C9 at a cluster whose Deployments are one without labels (not ready) and "istiod"
(ready): the scan gives what it gives on the cluster with "istiod" alone. -/
theorem C9_unlabeled_excluded_witness :
    calculateNotReadyStateForType withUnlabeled .Deployment ∅ deploymentReady =
      calculateNotReadyStateForType withoutUnlabeled .Deployment ∅ deploymentReady :=
  (C9_unlabeled_excluded withUnlabeled withoutUnlabeled .Deployment ∅ deploymentReady
    [unlabeledDeployment, istiodDeployment] rfl rfl).1

/-- Reading a key after assigning it. -/
theorem mapGet_mapSet_self (m : ReadinessMap) (c : String) (v : Bool) :
    mapGet (mapSet m c v) c = v := by
  simp [mapGet, mapSet]

/-- Reading a key after assigning another one. -/
theorem mapGet_mapSet_ne (m : ReadinessMap) (c c1 : String) (v : Bool) (h : c ≠ c1) :
    mapGet (mapSet m c1 v) c = mapGet m c := by
  simp [mapGet, mapSet, AList.lookup_insert_ne h]

/-- One step of a scan never clears a flag. -/
theorem mergeResource_keeps (isReady : Unstructured → Bool) (m : ReadinessMap)
    (u : Unstructured) (c : String) (h : mapGet m c = true) :
    mapGet (mergeResource isReady m u) c = true := by
  unfold mergeResource
  cases hl : GetLabel u KubernetesAppComponentKey with
  | none => exact h
  | some c1 =>
    by_cases hc : c = c1
    · subst hc
      simp [mapGet_mapSet_self, h]
    · simpa [mapGet_mapSet_ne m c c1 _ hc] using h

/-- A scan never clears a flag. -/
theorem foldl_mergeResource_keeps (isReady : Unstructured → Bool)
    (resources : List Unstructured) (m : ReadinessMap) (c : String)
    (h : mapGet m c = true) :
    mapGet (resources.foldl (mergeResource isReady) m) c = true := by
  induction resources generalizing m with
  | nil => exact h
  | cons u rest ih => exact ih _ (mergeResource_keeps isReady m u c h)

/-- A scan sets the flag of the component of every labeled resource that fails the probe. -/
theorem foldl_mergeResource_sets (isReady : Unstructured → Bool)
    (resources : List Unstructured) (m : ReadinessMap) (c : String) (u : Unstructured)
    (hu : u ∈ resources) (hl : GetLabel u KubernetesAppComponentKey = some c)
    (hn : isReady u = false) :
    mapGet (resources.foldl (mergeResource isReady) m) c = true := by
  induction resources generalizing m with
  | nil => cases hu
  | cons v rest ih =>
    rcases List.mem_cons.1 hu with rfl | hmem
    · rw [List.foldl_cons]
      apply foldl_mergeResource_keeps
      simp [mergeResource, hl, hn, mapGet_mapSet_self]
    · rw [List.foldl_cons]
      exact ih _ hmem

/-- What holds of the flags at the end of a pass without error: a component other than
"cni" that has an owned, labeled resource failing its probe has its flag true. -/
theorem not_ready_flag_kept_unless_cni (r : controlPlaneInstanceReconciler)
    (ds ss dss : List Unstructured) (c : String) (u : Unstructured)
    (h1 : r.Client.deployments = .ok ds) (h2 : r.Client.statefulSets = .ok ss)
    (h3 : r.Client.daemonSets = .ok dss)
    (hl : GetLabel u KubernetesAppComponentKey = some c) (hc : c ≠ "cni")
    (hu : (u ∈ ds ∧ deploymentReady u = false) ∨ (u ∈ ss ∧ statefulSetReady u = false) ∨
      (u ∈ dss ∧ daemonSetReady u = false)) :
    mapGet (calculateNotReadyState r).1 c = true := by
  simp only [calculateNotReadyState, calculateNotReadyStateForType, FetchOwnedResources, h1,
    h2, h3]
  rw [mapGet_mapSet_ne _ c "cni" _ hc]
  rcases hu with ⟨hm, hn⟩ | ⟨hm, hn⟩ | ⟨hm, hn⟩
  · exact foldl_mergeResource_keeps _ _ _ _
      (foldl_mergeResource_keeps _ _ _ _ (foldl_mergeResource_sets _ _ _ c u hm hl hn))
  · exact foldl_mergeResource_keeps _ _ _ _ (foldl_mergeResource_sets _ _ _ c u hm hl hn)
  · exact foldl_mergeResource_sets _ _ _ c u hm hl hn

/-- C10 at the failing input: `cniDeployment` is an owned, labeled resource of the component
"cni" and it is not ready; the Deployment scan sets the flag of "cni" to true; the pass
ends without error; and in the map it returns the flag of "cni" is false, because line 105
assigns the CNI result to the key "cni" instead of merging it. -/
theorem C10_cni_flag_overwritten :
    GetLabel cniDeployment KubernetesAppComponentKey = some "cni" ∧
    deploymentReady cniDeployment = false ∧
    mapGet (calculateNotReadyStateForType cniLabelled .Deployment ∅ deploymentReady).1 "cni"
      = true ∧
    (calculateNotReadyState cniLabelled).2.1 = none ∧
    mapGet (calculateNotReadyState cniLabelled).1 "cni" = false := by
  decide

/-! ## Keys and flags of the aggregate -/

/-- The keys after a scan: the keys before it and the labels of the listed resources. -/
theorem mem_foldl_mergeResource (isReady : Unstructured → Bool)
    (resources : List Unstructured) (m : ReadinessMap) (c : String) :
    c ∈ resources.foldl (mergeResource isReady) m ↔
      c ∈ m ∨ ∃ u ∈ resources, GetLabel u KubernetesAppComponentKey = some c := by
  induction resources generalizing m with
  | nil => simp
  | cons v rest ih =>
    rw [List.foldl_cons, ih]
    cases hl : GetLabel v KubernetesAppComponentKey with
    | none => simp [mergeResource, hl]
    | some c1 =>
      simp only [mergeResource, hl, mapSet, AList.mem_insert, List.mem_cons, exists_eq_or_imp,
        Option.some.injEq]
      constructor
      · rintro ((h | h) | h)
        · exact Or.inr (Or.inl h.symm)
        · exact Or.inl h
        · exact Or.inr (Or.inr h)
      · rintro (h | h | h)
        · exact Or.inl (Or.inr h)
        · exact Or.inl (Or.inl h.symm)
        · exact Or.inr h

/-- The flags after a scan: a flag is true when it was true before or when a listed
resource labeled with the component fails the probe. -/
theorem mapGet_foldl_mergeResource (isReady : Unstructured → Bool)
    (resources : List Unstructured) (m : ReadinessMap) (c : String) :
    mapGet (resources.foldl (mergeResource isReady) m) c = true ↔
      mapGet m c = true ∨
        ∃ u ∈ resources, GetLabel u KubernetesAppComponentKey = some c ∧ isReady u = false := by
  induction resources generalizing m with
  | nil => simp
  | cons v rest ih =>
    rw [List.foldl_cons, ih]
    cases hl : GetLabel v KubernetesAppComponentKey with
    | none => simp [mergeResource, hl]
    | some c1 =>
      by_cases hc : c = c1
      · subst hc
        simp only [mergeResource, hl, mapGet_mapSet_self, List.mem_cons, exists_eq_or_imp,
          true_and, Bool.or_eq_true, Bool.not_eq_true']
        tauto
      · have hne : ¬ c1 = c := fun h => hc h.symm
        simp only [mergeResource, hl, mapGet_mapSet_ne _ c c1 _ hc, List.mem_cons,
          exists_eq_or_imp, Option.some.injEq, hne, false_and, false_or]

/-- A lookup is decided by the presence of the key and by the flag read from the map. -/
theorem lookup_eq_of_mem_of_mapGet (m1 m2 : ReadinessMap) (c : String)
    (hk : c ∈ m1 ↔ c ∈ m2) (hf : mapGet m1 c = mapGet m2 c) :
    m1.lookup c = m2.lookup c := by
  unfold mapGet at hf
  cases h1 : m1.lookup c with
  | none =>
    cases h2 : m2.lookup c with
    | none => rfl
    | some b =>
      have : c ∈ m2 := AList.lookup_isSome.1 (by simp [h2])
      have h3 : (m1.lookup c).isSome = true := AList.lookup_isSome.2 (hk.2 this)
      simp [h1] at h3
  | some a =>
    cases h2 : m2.lookup c with
    | none =>
      have : c ∈ m1 := AList.lookup_isSome.1 (by simp [h1])
      have h3 : (m2.lookup c).isSome = true := AList.lookup_isSome.2 (hk.1 this)
      simp [h2] at h3
    | some b => simpa [h1, h2] using hf

/-- C11 as stated fails: a pass whose owned-resource listings succeed always has the key
"cni". In the idle cluster the three owned-resource listings are empty and CNI is
disabled (so no CNI listing is sent), no resource at all is observed, and the returned
map still has the key "cni". -/
theorem C11_cni_key_without_resource :
    idleReconciler.Client.deployments = .ok [] ∧
    idleReconciler.Client.statefulSets = .ok [] ∧
    idleReconciler.Client.daemonSets = .ok [] ∧
    (calculateNotReadyState idleReconciler).2.2 =
      [.owned .Deployment, .owned .StatefulSet, .owned .DaemonSet] ∧
    ¬ (∀ c, c ∈ (calculateNotReadyState idleReconciler).1 ↔
        ∃ u ∈ ([] : List Unstructured), GetLabel u KubernetesAppComponentKey = some c) := by
  refine ⟨rfl, rfl, rfl, by decide, ?_⟩
  intro h
  have hin : "cni" ∈ (calculateNotReadyState idleReconciler).1 :=
    AList.lookup_isSome.1 (by decide)
  obtain ⟨u, hu, -⟩ := (h "cni").1 hin
  cases hu

/-- C11, amended: the key set of the returned ReadinessMap. When the Deployment listing
fails the map has no key; when the StatefulSet listing fails its keys are the component
labels of the listed Deployments; when the DaemonSet listing fails its keys are the
component labels of the listed Deployments and StatefulSets; when the three listings
succeed its keys are the component labels of the listed Deployments, StatefulSets and
DaemonSets together with the key "cni", whether CNI is enabled or not and whatever the
CNI listing returns. -/
theorem C11_key_set (r : controlPlaneInstanceReconciler) (c : String) :
    (∀ e, r.Client.deployments = .error e → ¬ c ∈ (calculateNotReadyState r).1) ∧
    (∀ ds e, r.Client.deployments = .ok ds → r.Client.statefulSets = .error e →
      (c ∈ (calculateNotReadyState r).1 ↔
        ∃ u ∈ ds, GetLabel u KubernetesAppComponentKey = some c)) ∧
    (∀ ds ss e, r.Client.deployments = .ok ds → r.Client.statefulSets = .ok ss →
      r.Client.daemonSets = .error e →
      (c ∈ (calculateNotReadyState r).1 ↔
        ∃ u ∈ ds ++ ss, GetLabel u KubernetesAppComponentKey = some c)) ∧
    (∀ ds ss dss, r.Client.deployments = .ok ds → r.Client.statefulSets = .ok ss →
      r.Client.daemonSets = .ok dss →
      (c ∈ (calculateNotReadyState r).1 ↔
        c = "cni" ∨ ∃ u ∈ ds ++ ss ++ dss, GetLabel u KubernetesAppComponentKey = some c)) := by
  refine ⟨?_, ?_, ?_, ?_⟩
  · intro e h
    simp [calculateNotReadyState, calculateNotReadyStateForType, FetchOwnedResources, h]
  · intro ds e h1 h2
    simp [calculateNotReadyState, calculateNotReadyStateForType, FetchOwnedResources, h1, h2,
      mem_foldl_mergeResource]
  · intro ds ss e h1 h2 h3
    simp only [calculateNotReadyState, calculateNotReadyStateForType, FetchOwnedResources, h1,
      h2, h3, mem_foldl_mergeResource, List.mem_append]
    simp only [AList.not_mem_empty, false_or]
    constructor
    · rintro (⟨u, hu, hl⟩ | ⟨u, hu, hl⟩)
      · exact ⟨u, Or.inl hu, hl⟩
      · exact ⟨u, Or.inr hu, hl⟩
    · rintro ⟨u, hu | hu, hl⟩
      · exact Or.inl ⟨u, hu, hl⟩
      · exact Or.inr ⟨u, hu, hl⟩
  · intro ds ss dss h1 h2 h3
    simp only [calculateNotReadyState, calculateNotReadyStateForType, FetchOwnedResources, h1,
      h2, h3, mapSet, AList.mem_insert, mem_foldl_mergeResource, List.mem_append]
    simp only [AList.not_mem_empty, false_or]
    constructor
    · rintro (h | (⟨u, hu, hl⟩ | ⟨u, hu, hl⟩) | ⟨u, hu, hl⟩)
      · exact Or.inl h
      · exact Or.inr ⟨u, Or.inl (Or.inl hu), hl⟩
      · exact Or.inr ⟨u, Or.inl (Or.inr hu), hl⟩
      · exact Or.inr ⟨u, Or.inr hu, hl⟩
    · rintro (h | ⟨u, (hu | hu) | hu, hl⟩)
      · exact Or.inl h
      · exact Or.inr (Or.inl (Or.inl ⟨u, hu, hl⟩))
      · exact Or.inr (Or.inl (Or.inr ⟨u, hu, hl⟩))
      · exact Or.inr (Or.inr ⟨u, hu, hl⟩)

/-- C11, amended, at the cluster whose Deployments are one without labels and "istiod": the
keys of the returned map are "cni" and "istiod". -/
theorem C11_key_set_witness :
    "istiod" ∈ (calculateNotReadyState withUnlabeled).1 ∧
    "cni" ∈ (calculateNotReadyState withUnlabeled).1 :=
  ⟨((C11_key_set withUnlabeled "istiod").2.2.2
      [unlabeledDeployment, istiodDeployment] [] [] rfl rfl rfl).2
      (Or.inr ⟨istiodDeployment, by simp, by decide⟩),
   ((C11_key_set withUnlabeled "cni").2.2.2
      [unlabeledDeployment, istiodDeployment] [] [] rfl rfl rfl).2 (Or.inl rfl)⟩

/-- The loop of `calculateNotReadyStateForCNI` finds a DaemonSet that fails the probe. -/
theorem cniLoop_iff (daemonSets : List Unstructured) :
    cniLoop daemonSets = true ↔ ∃ ds ∈ daemonSets, daemonSetReady ds = false := by
  induction daemonSets with
  | nil => simp [cniLoop]
  | cons ds rest ih =>
    unfold cniLoop
    cases h : daemonSetReady ds <;> simp [h, ih]

/-- C12: the CNI contribution. With the CNI flag false, `calculateNotReadyStateForCNI`
sends no listing and returns (false, nil), whatever the cluster holds. With the flag true
and a listing that succeeds, it sends the one CNI listing, returns no error, and returns
not-ready = true if and only if a listed CNI DaemonSet fails the DaemonSet probe; an empty
listing gives false. -/
theorem C12_cni_contribution (r : controlPlaneInstanceReconciler) :
    (r.IsCNIEnabled = false → calculateNotReadyStateForCNI r = (false, none, [])) ∧
    (∀ daemonSets, r.IsCNIEnabled = true → r.Client.cniDaemonSets = .ok daemonSets →
      (calculateNotReadyStateForCNI r).2 = (none, [.cni]) ∧
      ((calculateNotReadyStateForCNI r).1 = true ↔
        ∃ ds ∈ daemonSets, daemonSetReady ds = false)) ∧
    (r.IsCNIEnabled = true → r.Client.cniDaemonSets = .ok [] →
      calculateNotReadyStateForCNI r = (false, none, [.cni])) := by
  refine ⟨?_, ?_, ?_⟩
  · intro h
    simp [calculateNotReadyStateForCNI, h]
  · intro daemonSets h hl
    simp [calculateNotReadyStateForCNI, h, hl, cniLoop_iff]
  · intro h hl
    simp [calculateNotReadyStateForCNI, h, hl, cniLoop]

/-- C12 at three clusters: CNI disabled with a failing CNI listing behind it (nothing is
listed, the result is ready), CNI enabled with an unavailable CNI DaemonSet (not ready),
CNI enabled with an empty listing (ready). -/
theorem C12_cni_contribution_witness :
    calculateNotReadyStateForCNI { cniListingFails with IsCNIEnabled := false }
      = (false, none, []) ∧
    (calculateNotReadyStateForCNI cniUnavailable).1 = true ∧
    calculateNotReadyStateForCNI { idleReconciler with IsCNIEnabled := true }
      = (false, none, [.cni]) :=
  ⟨(C12_cni_contribution { cniListingFails with IsCNIEnabled := false }).1 rfl,
   ((C12_cni_contribution cniUnavailable).2.1 [cniDaemonSetUnavailable] rfl rfl).2.2
      ⟨cniDaemonSetUnavailable, by simp, by decide⟩,
   (C12_cni_contribution { idleReconciler with IsCNIEnabled := true }).2.2 rfl rfl⟩

/-- C16: one scan is an order-independent OR-merge. When the listing of a kind returns
`resources`, the map left by `calculateNotReadyStateForType` started on `m` has, for each
component `c`, a true flag exactly when `m[c]` was true or a listed resource labeled `c`
fails the probe, and has the key `c` exactly when `m` had it or a listed resource is
labeled `c`; and a listing that returns a permutation of `resources` leaves the same map:
every key has the same lookup (presence and flag) in both. -/
theorem C16_or_merge (r r1 : controlPlaneInstanceReconciler) (gvk : Kind) (m : ReadinessMap)
    (isReady : Unstructured → Bool) (resources resources1 : List Unstructured)
    (h : FetchOwnedResources r.Client gvk = .ok resources)
    (h1 : FetchOwnedResources r1.Client gvk = .ok resources1)
    (hp : resources1.Perm resources) (c : String) :
    (mapGet (calculateNotReadyStateForType r gvk m isReady).1 c = true ↔
      mapGet m c = true ∨
        ∃ u ∈ resources, GetLabel u KubernetesAppComponentKey = some c ∧ isReady u = false) ∧
    (c ∈ (calculateNotReadyStateForType r gvk m isReady).1 ↔
      c ∈ m ∨ ∃ u ∈ resources, GetLabel u KubernetesAppComponentKey = some c) ∧
    (calculateNotReadyStateForType r1 gvk m isReady).1.lookup c =
      (calculateNotReadyStateForType r gvk m isReady).1.lookup c := by
  simp only [calculateNotReadyStateForType, h, h1]
  refine ⟨mapGet_foldl_mergeResource isReady resources m c,
    mem_foldl_mergeResource isReady resources m c, ?_⟩
  apply lookup_eq_of_mem_of_mapGet
  · rw [mem_foldl_mergeResource, mem_foldl_mergeResource]
    simp only [hp.mem_iff]
  · rw [Bool.eq_iff_iff, mapGet_foldl_mergeResource, mapGet_foldl_mergeResource]
    simp only [hp.mem_iff]

/-- C16 at a cluster with the Deployments "istiod" (ready) and "cni" (not ready), listed in
both orders: each component has the same lookup after both scans. -/
theorem C16_or_merge_witness :
    (calculateNotReadyStateForType twoComponentsSwapped .Deployment ∅
        deploymentReady).1.lookup "cni" =
      (calculateNotReadyStateForType twoComponents .Deployment ∅
        deploymentReady).1.lookup "cni" ∧
    (calculateNotReadyStateForType twoComponentsSwapped .Deployment ∅
        deploymentReady).1.lookup "istiod" =
      (calculateNotReadyStateForType twoComponents .Deployment ∅
        deploymentReady).1.lookup "istiod" :=
  ⟨(C16_or_merge twoComponents twoComponentsSwapped .Deployment ∅ deploymentReady
      [istiodDeployment, cniDeployment] [cniDeployment, istiodDeployment] rfl rfl
      (List.Perm.swap _ _ _) "cni").2.2,
   (C16_or_merge twoComponents twoComponentsSwapped .Deployment ∅ deploymentReady
      [istiodDeployment, cniDeployment] [cniDeployment, istiodDeployment] rfl rfl
      (List.Perm.swap _ _ _) "istiod").2.2⟩

/-! ## Messages, statuses and persistence -/

/-- The accumulator of `String.intercalate` and every joined string occur in the result. -/
theorem intercalate_go_infix (sep : String) (l : List String) (acc c : String)
    (h : c.data <:+: acc.data ∨ c ∈ l) :
    c.data <:+: (String.intercalate.go acc sep l).data := by
  induction l generalizing acc with
  | nil =>
    rcases h with h | h
    · simpa [String.intercalate.go] using h
    · cases h
  | cons a rest ih =>
    unfold String.intercalate.go
    apply ih
    rcases h with h | h
    · left
      simp only [String.data_append, List.append_assoc]
      exact h.trans (List.infix_append' [] acc.data (sep.data ++ a.data))
    · rcases List.mem_cons.1 h with rfl | h
      · left
        simp only [String.data_append]
        exact (List.suffix_append (acc.data ++ sep.data) c.data).isInfix
      · exact Or.inr h

/-- Every printed string occurs in the text that `sprintStrings` prints. -/
theorem infix_sprintStrings (xs : List String) (c : String) (h : c ∈ xs) :
    c.data <:+: (sprintStrings xs).data := by
  unfold sprintStrings
  simp only [String.data_append]
  have hi : c.data <:+: (" ".intercalate xs).data := by
    cases xs with
    | nil => cases h
    | cons a rest =>
      unfold String.intercalate
      apply intercalate_go_infix
      rcases List.mem_cons.1 h with rfl | h
      · exact Or.inl (List.infix_refl _)
      · exact Or.inr h
  exact hi.trans (List.infix_append "[".data _ "]".data)

/-- C13 as stated fails: the stored message is a fixed text. For the map in which "istiod"
is not ready, started from no stored condition, the transition step moves Ready to False
and requests persistence, and the Message of the stored condition is "Some components are
not fully available", in which the name "istiod" does not occur. -/
theorem C13_condition_message_is_fixed :
    mapGet istiodNotReady "istiod" = true ∧
    (updateReadinessStatusWith istiodNotReady none idleReconciler).1 = true ∧
    ((updateReadinessStatusWith istiodNotReady none
        idleReconciler).2.2.Status.GetCondition .Ready).Status = .False ∧
    ((updateReadinessStatusWith istiodNotReady none
        idleReconciler).2.2.Status.GetCondition .Ready).Message =
      "Some components are not fully available" ∧
    ¬ "istiod".data <:+: ((updateReadinessStatusWith istiodNotReady none
        idleReconciler).2.2.Status.GetCondition .Ready).Message.data := by
  decide

/-- C13, amended: where the component is named. Whenever the transition step moves the
Ready condition to False (no aggregation error, some component not ready, stored status
not False), the Message of the stored condition is the fixed text "Some components are not
fully available"; the names are in the notification: the one event appended is a Warning
whose message is "The following components are not fully available: " followed by the
printed list of unready components, and the name of every unready component occurs in
that message. -/
theorem C13_names_in_event (m : ReadinessMap) (r : controlPlaneInstanceReconciler)
    (h : ∃ c, mapGet m c = true) (hs : (r.Status.GetCondition .Ready).Status ≠ .False) :
    ((updateReadinessStatusWith m none r).2.2.Status.GetCondition .Ready).Message =
      "Some components are not fully available" ∧
    ∃ e, (updateReadinessStatusWith m none r).2.2.EventRecorder = r.EventRecorder ++ [e] ∧
      e.eventtype = .Warning ∧
      e.message = "The following components are not fully available: " ++
        sprintStrings (unreadyComponentsOf m) ∧
      ∀ c, mapGet m c = true → c.data <:+: e.message.data := by
  rw [updateReadinessStatusWith_unready m r h, if_pos hs]
  have hg := GetCondition_SetCondition r.Status
    { Type_ := .Ready, Status := .False, Reason := .ComponentsNotReady,
      Message := "Some components are not fully available" }
  simp only at hg
  refine ⟨by simp only [hg], _, rfl, rfl, rfl, ?_⟩
  intro c hc
  simp only [String.data_append]
  exact (infix_sprintStrings _ c ((mem_unreadyComponentsOf m c).2 hc)).trans
    (List.suffix_append _ _).isInfix

/-- C13, amended, at the map in which "istiod" is not ready: the stored message is the
fixed text and the appended event names "istiod". -/
theorem C13_names_in_event_witness :
    ((updateReadinessStatusWith istiodNotReady none
        idleReconciler).2.2.Status.GetCondition .Ready).Message =
      "Some components are not fully available" ∧
    (updateReadinessStatusWith istiodNotReady none idleReconciler).2.2.EventRecorder =
      [⟨.Warning, .NotReady, "The following components are not fully available: [istiod]"⟩] :=
  ⟨(C13_names_in_event istiodNotReady idleReconciler ⟨"istiod", by decide⟩ (by decide)).1,
   by decide⟩

/-- After an error-path run the stored Ready condition is Unknown / ProbeError. -/
theorem status_after_probe_error (m : ReadinessMap) (e : Error)
    (r : controlPlaneInstanceReconciler) :
    ((updateReadinessStatusWith m (some e) r).2.2.Status.GetCondition .Ready).Status
      = .Unknown := by
  have hg := GetCondition_SetCondition r.Status
    { Type_ := .Ready, Status := .Unknown, Reason := .ProbeError,
      Message := "Error collecting ready state: " ++ e.msg }
  simp only at hg
  simp [updateReadinessStatusWith, hg]

/-- C14: Unknown is reserved for probe failure. After a run of the transition step with no
aggregation error, whatever was stored before, the stored Ready status is False when some
component is not ready and True otherwise (a map with no entry at all included); after a
run with an aggregation error it is Unknown; so after a run it is Unknown if and only if
aggregation returned an error. The last part says the same of `updateReadinessStatus`,
whose aggregation outcome is that of `calculateNotReadyState`. -/
theorem C14_unknown_iff_probe_error (m : ReadinessMap) (err : Option Error)
    (r : controlPlaneInstanceReconciler) :
    (err = none → (∃ c, mapGet m c = true) →
      ((updateReadinessStatusWith m err r).2.2.Status.GetCondition .Ready).Status = .False) ∧
    (err = none → (¬ ∃ c, mapGet m c = true) →
      ((updateReadinessStatusWith m err r).2.2.Status.GetCondition .Ready).Status = .True) ∧
    (((updateReadinessStatusWith m err r).2.2.Status.GetCondition .Ready).Status = .Unknown ↔
      err ≠ none) ∧
    (((updateReadinessStatus r).2.2.Status.GetCondition .Ready).Status = .Unknown ↔
      (calculateNotReadyState r).2.1 ≠ none) := by
  have key : ∀ (m : ReadinessMap) (err : Option Error) (r : controlPlaneInstanceReconciler),
      (((updateReadinessStatusWith m err r).2.2.Status.GetCondition .Ready).Status = .Unknown ↔
        err ≠ none) := by
    intro m err r
    cases err with
    | some e =>
      simp [status_after_probe_error m e r]
    | none =>
      by_cases h : ∃ c, mapGet m c = true
      · simp [status_after_success_unready m r h]
      · simp [status_after_success_ready m r h]
  refine ⟨?_, ?_, key m err r, ?_⟩
  · rintro rfl h
    exact status_after_success_unready m r h
  · rintro rfl h
    exact status_after_success_ready m r h
  · exact key _ _ _

/-- C14 at the idle reconciler, whose stored status reads Unknown: with "istiod" not ready
the status becomes False, with the empty map it becomes True. -/
theorem C14_unknown_iff_probe_error_witness :
    ((updateReadinessStatusWith istiodNotReady none
        idleReconciler).2.2.Status.GetCondition .Ready).Status = .False ∧
    ((updateReadinessStatusWith ∅ none
        idleReconciler).2.2.Status.GetCondition .Ready).Status = .True :=
  ⟨(C14_unknown_iff_probe_error istiodNotReady none idleReconciler).1 rfl
      ⟨"istiod", by decide⟩,
   (C14_unknown_iff_probe_error ∅ none idleReconciler).2.1 rfl (by simp [mapGet])⟩

/-- C15: persistence gating. One call of `UpdateReadiness` calls `PostStatus` once when the
transition step returned shouldPersist = true and the instance is not flagged to skip
status updates, and not at all otherwise; when `PostStatus` is not called, the probe error
is returned unchanged. The first two parts say it of lines 21-33 for every outcome of the
transition step, the last of the whole call. -/
theorem C15_persistence_gating (update : Bool) (err statusErr : Option Error)
    (r : controlPlaneInstanceReconciler) :
    (UpdateReadinessWith update err statusErr r).2.postStatusCalls =
      r.postStatusCalls + (if update = true ∧ r.skipStatusUpdate = false then 1 else 0) ∧
    (¬ (update = true ∧ r.skipStatusUpdate = false) →
      (UpdateReadinessWith update err statusErr r).1 = err) ∧
    (UpdateReadiness statusErr r).2.postStatusCalls =
      r.postStatusCalls +
        (if (updateReadinessStatus r).1 = true ∧ r.skipStatusUpdate = false then 1 else 0) ∧
    (¬ ((updateReadinessStatus r).1 = true ∧ r.skipStatusUpdate = false) →
      (UpdateReadiness statusErr r).1 = (updateReadinessStatus r).2.1) := by
  have h1 : ∀ (update : Bool) (err : Option Error) (r : controlPlaneInstanceReconciler),
      (UpdateReadinessWith update err statusErr r).2.postStatusCalls =
        r.postStatusCalls + (if update = true ∧ r.skipStatusUpdate = false then 1 else 0) := by
    intro update err r
    unfold UpdateReadinessWith
    cases update <;> cases hs : r.skipStatusUpdate <;> cases statusErr <;> cases err <;> simp
  have h2 : ∀ (update : Bool) (err : Option Error) (r : controlPlaneInstanceReconciler),
      ¬ (update = true ∧ r.skipStatusUpdate = false) →
        (UpdateReadinessWith update err statusErr r).1 = err := by
    intro update err r hn
    unfold UpdateReadinessWith
    cases update <;> cases hs : r.skipStatusUpdate <;> simp [hs] at hn ⊢
  have hframe : (updateReadinessStatus r).2.2.postStatusCalls = r.postStatusCalls ∧
      (updateReadinessStatus r).2.2.skipStatusUpdate = r.skipStatusUpdate := by
    unfold updateReadinessStatus
    obtain ⟨-, -, hs, -, hp⟩ := updateReadinessStatusWith_frame (calculateNotReadyState r).1
      (calculateNotReadyState r).2.1
      { r with listCalls := r.listCalls ++ (calculateNotReadyState r).2.2 }
    exact ⟨hp, hs⟩
  refine ⟨h1 update err r, h2 update err r, ?_, ?_⟩
  · have := h1 (updateReadinessStatus r).1 (updateReadinessStatus r).2.1
      (updateReadinessStatus r).2.2
    rw [hframe.1, hframe.2] at this
    exact this
  · intro hn
    apply h2 (updateReadinessStatus r).1 (updateReadinessStatus r).2.1
      (updateReadinessStatus r).2.2
    rw [hframe.2]
    exact hn

/-- C15 at the idle reconciler with the skip flag set and a probe error: `PostStatus` is
not called and the probe error is returned. -/
theorem C15_persistence_gating_witness :
    (UpdateReadinessWith true (some ⟨"probe"⟩) (some ⟨"store"⟩)
        { idleReconciler with skipStatusUpdate := true }).1 = some ⟨"probe"⟩ :=
  (C15_persistence_gating true (some ⟨"probe"⟩) (some ⟨"store"⟩)
    { idleReconciler with skipStatusUpdate := true }).2.1 (by decide)

/-- The order of the names "a" and "b". -/
theorem a_lt_b : ("a" : String) < "b" :=
  String.lt_iff_toList_lt.2 (by decide)

/-- C17 as stated fails: the list is in the order of the `range`, which nothing sorts. The
map `bThenA` holds "a" and "b", both not ready, and is visited in the order "b", "a" (Go
leaves the order of a `range` over a map unspecified, so this order can occur): the list
built is ["b", "a"], which is not sorted. In the pass over the cluster `unreadyAB` the
Warning prints the list in that order. -/
theorem C17_range_order_not_sorted :
    mapGet bThenA "a" = true ∧ mapGet bThenA "b" = true ∧
    unreadyComponentsOf bThenA = ["b", "a"] ∧
    ¬ List.Sorted (· ≤ ·) (unreadyComponentsOf bThenA) ∧
    (updateReadinessStatus unreadyAB).2.2.EventRecorder =
      [⟨.Warning, .NotReady, "The following components are not fully available: [b a]"⟩] := by
  refine ⟨by decide, by decide, by decide, ?_, by decide⟩
  have hl : unreadyComponentsOf bThenA = ["b", "a"] := by decide
  rw [hl]
  intro h
  have hle := List.rel_of_sorted_cons h "a" (by simp)
  exact absurd a_lt_b (not_lt.2 hle)

/-- C17, amended: the unready-component list. For every ReadinessMap, the list built by
lines 51-57 contains exactly the components whose not-ready flag is true, each once, in
the order in which the `range` visits the keys of the map (it is a sublist of the keys in
that order); the Warning emitted at a transition to False prints that list. -/
theorem C17_unready_list (m : ReadinessMap) (r : controlPlaneInstanceReconciler) :
    (∀ c, c ∈ unreadyComponentsOf m ↔ mapGet m c = true) ∧
    (unreadyComponentsOf m).Nodup ∧
    (unreadyComponentsOf m).Sublist m.keys ∧
    ((∃ c, mapGet m c = true) → (r.Status.GetCondition .Ready).Status ≠ .False →
      (updateReadinessStatusWith m none r).2.2.EventRecorder =
        r.EventRecorder ++ [⟨.Warning, .NotReady,
          "The following components are not fully available: " ++
            sprintStrings (unreadyComponentsOf m)⟩]) := by
  have hsub : (unreadyComponentsOf m).Sublist m.keys := by
    unfold unreadyComponentsOf AList.keys List.keys
    exact (List.filter_sublist _).map _
  refine ⟨mem_unreadyComponentsOf m, hsub.nodup m.keys_nodup, hsub, ?_⟩
  intro h hs
  rw [updateReadinessStatusWith_unready m r h, if_pos hs]

/-- C17, amended, at the map with "istiod" not ready: the Warning prints "[istiod]". -/
theorem C17_unready_list_witness :
    (updateReadinessStatusWith istiodNotReady none idleReconciler).2.2.EventRecorder =
      idleReconciler.EventRecorder ++ [⟨.Warning, .NotReady,
        "The following components are not fully available: " ++
          sprintStrings (unreadyComponentsOf istiodNotReady)⟩] :=
  (C17_unready_list istiodNotReady idleReconciler).2.2.2 ⟨"istiod", by decide⟩ (by decide)

/-- C18: the transition decision ignores which components are unready. For two maps that
each have a not-ready component and two states with the same condition set, the
transition step returns the same shouldPersist and leaves the same condition set; and when
the stored Ready status is already False, a run on a map with a not-ready component
returns shouldPersist = false and leaves the state, records of events included, as it
was, whichever components are unready. -/
theorem C18_unready_set_ignored (m1 m2 : ReadinessMap)
    (r1 r2 : controlPlaneInstanceReconciler)
    (h1 : ∃ c, mapGet m1 c = true) (h2 : ∃ c, mapGet m2 c = true)
    (hst : r1.Status = r2.Status) :
    (updateReadinessStatusWith m1 none r1).1 = (updateReadinessStatusWith m2 none r2).1 ∧
    (updateReadinessStatusWith m1 none r1).2.2.Status =
      (updateReadinessStatusWith m2 none r2).2.2.Status ∧
    ((r1.Status.GetCondition .Ready).Status = .False →
      updateReadinessStatusWith m1 none r1 = (false, none, r1) ∧
      updateReadinessStatusWith m2 none r2 = (false, none, r2)) := by
  rw [updateReadinessStatusWith_unready m1 r1 h1, updateReadinessStatusWith_unready m2 r2 h2,
    hst]
  by_cases hs : (r2.Status.GetCondition .Ready).Status ≠ .False
  · rw [if_pos hs, if_pos hs]
    exact ⟨rfl, rfl, fun hf => absurd hf hs⟩
  · rw [if_neg hs, if_neg hs]
    exact ⟨rfl, hst, fun _ => ⟨rfl, rfl⟩⟩

/-- C18 at a state whose stored Ready status is False: the unready set changes from
"istiod" to "galley" and neither run requests persistence or records an event. -/
theorem C18_unready_set_ignored_witness :
    updateReadinessStatusWith istiodNotReady none storedFalse = (false, none, storedFalse) ∧
    updateReadinessStatusWith galleyNotReady none storedFalse = (false, none, storedFalse) :=
  (C18_unready_set_ignored istiodNotReady galleyNotReady storedFalse storedFalse
    ⟨"istiod", by decide⟩ ⟨"galley", by decide⟩ rfl).2.2 (by decide)

end Readiness


namespace Conversion

open Readiness (Error Value)

/-! ## The gateway round trip -/

/-- C19 at the failing input: for the GatewayConfig that enables SDS and leaves every other
field at its zero value, whatever the other converters do, `gatewayConfigToValues` writes
the flag at the path `sds.enable`; `gatewayValuesToConfig` reads the path `sds.enabled`,
which these values do not hold, so the EnableSDS it returns is nil and not the `true`
that went in. -/
theorem C19_enableSDS_lost (conv : Converters) (out : GatewayConfig) :
    sdsEnabledConfig.EnableSDS = some true ∧
    gatewayConfigToValues conv sdsEnabledConfig =
      .ok [("env", .map [("ISTIO_META_ROUTER_MODE", .string "sni-dnat")]),
        ("sds", .map [("enable", .bool true)])] ∧
    getHelmBoolValue [("env", .map [("ISTIO_META_ROUTER_MODE", .string "sni-dnat")]),
        ("sds", .map [("enable", .bool true)])] "sds.enable" = some true ∧
    (gatewayValuesToConfig [("env", .map [("ISTIO_META_ROUTER_MODE", .string "sni-dnat")]),
        ("sds", .map [("enable", .bool true)])] out).EnableSDS = none := by
  refine ⟨rfl, rfl, by decide, ?_⟩
  simp only [gatewayValuesToConfig]
  decide

/-! ## Mesh-expansion ports -/

/-- What the inner loop appends: one copy of the port for every entry of the original list
from `index` up to the first entry that has the port number of the port. -/
theorem addExpansionPortsInner_eq (port : ServicePort) (in_ : List ServicePort) :
    ∀ (fuel index : Nat) (extra : List ServicePort), index + fuel = in_.length →
      addExpansionPortsInner port index fuel (in_ ++ extra) =
        in_ ++ extra ++ List.replicate
          ((in_.drop index).takeWhile fun q => decide (port.Port ≠ q.Port)).length port := by
  intro fuel
  induction fuel with
  | zero =>
    intro index extra h
    have hd : in_.drop index = [] := List.drop_eq_nil_of_le (by omega)
    simp [addExpansionPortsInner, hd]
  | succ fuel ih =>
    intro index extra h
    have hlt : index < in_.length := by omega
    have hget : (in_ ++ extra).get? index = some in_[index] := by
      rw [List.get?_eq_getElem?, List.getElem?_append_left hlt, List.getElem?_eq_getElem hlt]
    have hdrop := List.drop_eq_getElem_cons hlt
    unfold addExpansionPortsInner
    rw [hget]
    by_cases hp : port.Port = in_[index].Port
    · rw [hdrop, List.takeWhile_cons_of_neg (by simpa using hp)]
      simp only [hp, if_true, List.length_nil, List.replicate_zero, List.append_nil]
    · have := ih (index + 1) (extra ++ [port]) (by omega)
      simp only [hp, if_false, List.append_assoc] at this ⊢
      rw [this, hdrop, List.takeWhile_cons_of_pos (by simpa using hp)]
      simp only [List.length_cons, List.replicate_succ, List.singleton_append]

/-- What `addExpansionPorts` computes: the original list followed, for every port of
`ports` in order, by as many copies of the port as the original list has entries before
the first one with the same port number. -/
theorem addExpansionPorts_eq (in_ ports : List ServicePort) :
    addExpansionPorts in_ ports =
      in_ ++ ports.flatMap fun port =>
        List.replicate (in_.takeWhile fun q => decide (port.Port ≠ q.Port)).length port := by
  unfold addExpansionPorts
  have key : ∀ (ports extra : List ServicePort),
      ports.foldl (fun cur port => addExpansionPortsInner port 0 in_.length cur)
          (in_ ++ extra) =
        in_ ++ extra ++ ports.flatMap fun port =>
          List.replicate (in_.takeWhile fun q => decide (port.Port ≠ q.Port)).length port := by
    intro ports
    induction ports with
    | nil => intro extra; simp
    | cons port rest ih =>
      intro extra
      rw [List.foldl_cons, addExpansionPortsInner_eq port in_ in_.length 0 extra (by omega),
        List.append_assoc, ih, List.flatMap_cons]
      simp [List.append_assoc]
  simpa using key ports []

/-- C20 at three failing inputs. With an empty `in` the inner loop never runs and nothing
is added, so the result is empty and not `ports`. With two ports in `in`, neither of them
among `ports`, every port of `ports` is added twice. With "tls" on 853 second in `in`, the
port "tcp-dns-tls" on 853 of `ports` is added although its number is already in `in`. -/
theorem C20_append_inside_inner_loop :
    addExpansionPorts [] meshExpansionPortsV20 = [] ∧
    addExpansionPorts [portHttp, portHttps] meshExpansionPortsV20 =
      [portHttp, portHttps,
        { Name := "tcp-istiod", Protocol := "", Port := 15012, TargetPort := .int 15012,
          NodePort := 0 },
        { Name := "tcp-istiod", Protocol := "", Port := 15012, TargetPort := .int 15012,
          NodePort := 0 },
        { Name := "tcp-dns-tls", Protocol := "", Port := 853, TargetPort := .int 8853,
          NodePort := 0 },
        { Name := "tcp-dns-tls", Protocol := "", Port := 853, TargetPort := .int 8853,
          NodePort := 0 }] ∧
    addExpansionPorts [portHttp, portTls] meshExpansionPortsV20 =
      [portHttp, portTls,
        { Name := "tcp-istiod", Protocol := "", Port := 15012, TargetPort := .int 15012,
          NodePort := 0 },
        { Name := "tcp-istiod", Protocol := "", Port := 15012, TargetPort := .int 15012,
          NodePort := 0 },
        { Name := "tcp-dns-tls", Protocol := "", Port := 853, TargetPort := .int 8853,
          NodePort := 0 }] := by
  decide

end Conversion
